import Mathlib

/-!
# Patlak linear fit on dynamic images (`apply_patlak_on_images.cxx`)

A shallow embedding of `main` of `src/local/utilities/apply_patlak_on_images.cxx`.

Conventions of the embedding:

* `float` values are exact rationals (`ℚ`): rounding, infinities and NaN are not modelled.
* `unsigned int` values are natural numbers; where the source can wrap (the default
  `starting_frame`) the arithmetic is written out modulo `2 ^ 32`.
* `std::vector<float>` is `List ℚ`; `v[n] = x` is `List.set`, a read `v[n]` is `List.getD _ n 0`.
* Frame numbers are 1-based as in the source; vector slots are `frame_num - 1`.
  A `starting_frame` of `0` indexes slot `UINT_MAX` in the source (undefined behaviour), so the
  theorems on the per-voxel loop assume `1 ≤ starting_frame`.
* Library routines that `main` calls but whose source is not available are either parameters
  (`Externals`) or, where a statement needs a concrete value, modelled from the specification
  and marked as such.
-/

namespace Patlak

/-! ## Data model -/

/-- One entry of `PlasmaData`: the values returned by `get_time_in_s()`,
`get_plasma_counts_in_kBq()` and `get_blood_counts_in_kBq()`. -/
structure PlasmaSample where
  time_in_s : ℚ
  plasma_counts_in_kBq : ℚ
  blood_counts_in_kBq : ℚ
deriving DecidableEq

/-- Modelled from the spec: `TimeFrameDefinitions` (declared in `stir/TimeFrameDefinitions.h`,
whose source is not available). Frames are numbered `1..num_frames`, each has a start and an end
time, and `duration = end_time - start_time`. -/
structure TimeFrameDefinitions where
  frame_times : List (ℚ × ℚ)

namespace TimeFrameDefinitions

def get_num_frames (tfd : TimeFrameDefinitions) : Nat :=
  tfd.frame_times.length

def get_start_time (tfd : TimeFrameDefinitions) (frame_num : Nat) : ℚ :=
  (tfd.frame_times.getD (frame_num - 1) (0, 0)).1

def get_end_time (tfd : TimeFrameDefinitions) (frame_num : Nat) : ℚ :=
  (tfd.frame_times.getD (frame_num - 1) (0, 0)).2

def get_duration (tfd : TimeFrameDefinitions) (frame_num : Nat) : ℚ :=
  tfd.get_end_time frame_num - tfd.get_start_time frame_num

end TimeFrameDefinitions

/-- Modelled from the spec: `linear_integral` (declared in
`local/stir/numerics/linear_integral.h`, whose source is not available), the trapezoidal
integral over time of the values `f` sampled at the times `t`, for two samples or more. What
the routine does with fewer than two samples is left open by the specification (a precondition
of the routine); the value 0 below only makes the function total, and the statements on the
values of the integral are made for frames that hold at least two samples. -/
def linear_integral : List ℚ → List ℚ → ℚ
  | f0 :: f1 :: fs, t0 :: t1 :: ts =>
      (f0 + f1) / 2 * (t1 - t0) + linear_integral (f1 :: fs) (t1 :: ts)
  | _, _ => 0

/-! ## Frame integration (source lines 125-201) -/

/-- State of the inner scan over the plasma samples (lines 154-190): the position of
`cur_iter`, the three per-frame vectors, and a ghost counter `examined` of how many samples the
loop condition dereferenced (`cur_iter->get_time_in_s()`). -/
structure ScanState where
  cur_iter : Nat
  examined : Nat
  time_frame_vector : List ℚ
  plasma_frame_vector : List ℚ
  blood_frame_vector : List ℚ
deriving DecidableEq

/-- The state at the loop initialiser `cur_iter=plasma_data.begin()` of line 154, with the three
vectors freshly declared at lines 140-142. -/
def scan_begin : ScanState :=
  { cur_iter := 0, examined := 0,
    time_frame_vector := [], plasma_frame_vector := [], blood_frame_vector := [] }

/-- The `for` loop of lines 154-190, run on the samples from `cur_iter` to
`plasma_data.end()`. -/
def plasma_scan (frame_start_time frame_end_time : ℚ) :
    List PlasmaSample → ScanState → ScanState
  | [], st => st
  | s :: rest, st =>
    let st1 := { st with examined := st.examined + 1 }
    if s.time_in_s < frame_end_time then
      let cur_time := s.time_in_s
      if cur_time < frame_start_time then
        plasma_scan frame_start_time frame_end_time rest
          { st1 with cur_iter := st1.cur_iter + 1 }
      else if cur_time < frame_end_time then
        plasma_scan frame_start_time frame_end_time rest
          { st1 with
            cur_iter := st1.cur_iter + 1
            plasma_frame_vector := st1.plasma_frame_vector ++ [s.plasma_counts_in_kBq]
            blood_frame_vector := st1.blood_frame_vector ++ [s.blood_counts_in_kBq]
            time_frame_vector := st1.time_frame_vector ++ [cur_time] }
      else st1
    else st1

/-- The scan of one frame when the loop is entered with `cur_iter` at position `cursor`. -/
def frame_scan_from (cursor : Nat) (plasma_data : List PlasmaSample)
    (tfd : TimeFrameDefinitions) (frame_num : Nat) : ScanState :=
  plasma_scan (tfd.get_start_time frame_num) (tfd.get_end_time frame_num)
    (plasma_data.drop cursor) { scan_begin with cur_iter := cursor }

/-- The scan of one frame as line 154 starts it: the loop initialiser is
`cur_iter=plasma_data.begin()`, position `0`. -/
def frame_scan (plasma_data : List PlasmaSample) (tfd : TimeFrameDefinitions)
    (frame_num : Nat) : ScanState :=
  frame_scan_from 0 plasma_data tfd frame_num

/-- The value assigned to `plasma_vector[frame_num-1]` at line 192, before the division of
line 199. -/
def raw_plasma_integral (li : List ℚ → List ℚ → ℚ) (plasma_data : List PlasmaSample)
    (tfd : TimeFrameDefinitions) (frame_num : Nat) : ℚ :=
  li (frame_scan plasma_data tfd frame_num).plasma_frame_vector
    (frame_scan plasma_data tfd frame_num).time_frame_vector

/-- The value assigned to `blood_vector[frame_num-1]` at line 193, before the division of
line 200. -/
def raw_blood_integral (li : List ℚ → List ℚ → ℚ) (plasma_data : List PlasmaSample)
    (tfd : TimeFrameDefinitions) (frame_num : Nat) : ℚ :=
  li (frame_scan plasma_data tfd frame_num).blood_frame_vector
    (frame_scan plasma_data tfd frame_num).time_frame_vector

/-- The variables that live across iterations of the frame loop (lines 126-131), with the
ghost counter `total_examined` summing `examined` over the frames done so far. -/
structure FrameState where
  plasma_vector : List ℚ
  blood_vector : List ℚ
  plasma_sum_vector : List ℚ
  plasma_frame_sum : ℚ
  cur_iter : Nat
  total_examined : Nat
deriving DecidableEq

/-- Lines 126-130: the three vectors of `num_frames` zeros and `plasma_frame_sum=0`. -/
def frame_state_init (num_frames : Nat) : FrameState :=
  { plasma_vector := List.replicate num_frames 0
    blood_vector := List.replicate num_frames 0
    plasma_sum_vector := List.replicate num_frames 0
    plasma_frame_sum := 0
    cur_iter := 0
    total_examined := 0 }

/-- The body of the frame loop, lines 139-201, for one `frame_num`. -/
def frame_body (li : List ℚ → List ℚ → ℚ) (plasma_data : List PlasmaSample)
    (tfd : TimeFrameDefinitions) (st : FrameState) (frame_num : Nat) : FrameState :=
  let sc := frame_scan plasma_data tfd frame_num
  let plasma_vector1 :=
    st.plasma_vector.set (frame_num - 1) (li sc.plasma_frame_vector sc.time_frame_vector)
  let blood_vector1 :=
    st.blood_vector.set (frame_num - 1) (li sc.blood_frame_vector sc.time_frame_vector)
  let plasma_frame_sum := st.plasma_frame_sum + plasma_vector1.getD (frame_num - 1) 0
  let plasma_sum_vector := st.plasma_sum_vector.set (frame_num - 1) plasma_frame_sum
  { plasma_vector :=
      plasma_vector1.set (frame_num - 1)
        (plasma_vector1.getD (frame_num - 1) 0 / tfd.get_duration frame_num)
    blood_vector :=
      blood_vector1.set (frame_num - 1)
        (blood_vector1.getD (frame_num - 1) 0 / tfd.get_duration frame_num)
    plasma_sum_vector := plasma_sum_vector
    plasma_frame_sum := plasma_frame_sum
    cur_iter := sc.cur_iter
    total_examined := st.total_examined + sc.examined }

/-- The first `m` iterations of the frame loop of lines 137-201 (`frame_num = 1, ..., m`) on
vectors of `num_frames` slots. -/
def integrate_frames_upto (li : List ℚ → List ℚ → ℚ) (plasma_data : List PlasmaSample)
    (tfd : TimeFrameDefinitions) (num_frames m : Nat) : FrameState :=
  (List.range' 1 m).foldl (frame_body li plasma_data tfd) (frame_state_init num_frames)

/-- The whole frame loop of lines 137-201: `frame_num = 1, ..., num_frames`. -/
def integrate_frames (li : List ℚ → List ℚ → ℚ) (plasma_data : List PlasmaSample)
    (tfd : TimeFrameDefinitions) : FrameState :=
  integrate_frames_upto li plasma_data tfd tfd.get_num_frames tfd.get_num_frames

/-! ## Per-voxel Patlak observations and RoI accumulation (source lines 202-292) -/

/-- Modelled from the spec: `VectorWithOffset<float>` (declared in `stir/VectorWithOffset.h`,
whose source is not available), the array of Patlak observations with slots
`min_index..max_index` built by `VectorWithOffset(min_index, max_index)`. Reads and writes are
meaningful for indices inside the range only. -/
structure VectorWithOffset where
  min_index : Int
  max_index : Int
  elems : List ℚ
deriving DecidableEq

namespace VectorWithOffset

def create (min_index max_index : Int) : VectorWithOffset :=
  { min_index := min_index, max_index := max_index,
    elems := List.replicate (max_index + 1 - min_index).toNat 0 }

def get_length (v : VectorWithOffset) : Nat := v.elems.length

def get (v : VectorWithOffset) (n : Int) : ℚ :=
  v.elems.getD (n - v.min_index).toNat 0

def set (v : VectorWithOffset) (n : Int) (x : ℚ) : VectorWithOffset :=
  { v with elems := v.elems.set (n - v.min_index).toNat x }

end VectorWithOffset

/-- The index bounds of the density the three voxel loops of lines 243-253 run over: the
bounds of the `j` range may depend on `k`, those of the `i` range on `k` and `j`. -/
structure Grid where
  min_k_index : Int
  max_k_index : Int
  min_j_index : Int → Int
  max_j_index : Int → Int
  min_i_index : Int → Int → Int
  max_i_index : Int → Int → Int

/-- The values `min_index, min_index+1, ..., max_index` a loop
`for (int k = min_index; k <= max_index; ++k)` takes. -/
def index_range (min_index max_index : Int) : List Int :=
  (List.range (max_index + 1 - min_index).toNat).map (fun n => min_index + (n : Int))

/-- The values a loop `for (frame_num = starting_frame; frame_num<=num_frames; ++frame_num)`
takes (lines 258-259 and 302). -/
def frame_range (starting_frame num_frames : Nat) : List Nat :=
  List.range' starting_frame (num_frames + 1 - starting_frame)

/-- One factor of the condition of lines 266-268: `abs(max_index+min_index-2*k)<=6`. -/
def in_band (min_index max_index k : Int) : Bool :=
  decide (|max_index + min_index - 2 * k| ≤ 6)

/-- The condition of lines 266-268 for the voxel `(k, j, i)`. -/
def in_RoI (g : Grid) (k j i : Int) : Bool :=
  in_band g.min_k_index g.max_k_index k &&
  in_band (g.min_j_index k) (g.max_j_index k) j &&
  in_band (g.min_i_index k j) (g.max_i_index k j) i

/-- The voxels in the order the loops of lines 245-253 visit them. -/
def voxels (g : Grid) : List (Int × Int × Int) :=
  (index_range g.min_k_index g.max_k_index).flatMap fun k =>
    (index_range (g.min_j_index k) (g.max_j_index k)).flatMap fun j =>
      (index_range (g.min_i_index k j) (g.max_i_index k j)).map fun i => (k, j, i)

/-- The RoI accumulators of lines 202-206. -/
structure RoIState where
  patlak_y_RoI : List ℚ
  patlak_x_RoI : List ℚ
  tissue_vector_RoI : List ℚ
  plasma_vector_RoI : List ℚ
  total_voxels_RoI : Int
deriving DecidableEq

/-- Lines 202-206: four vectors of `num_frames` zeros and `total_voxels_RoI=0`. -/
def roi_init (num_frames : Nat) : RoIState :=
  { patlak_y_RoI := List.replicate num_frames 0
    patlak_x_RoI := List.replicate num_frames 0
    tissue_vector_RoI := List.replicate num_frames 0
    plasma_vector_RoI := List.replicate num_frames 0
    total_voxels_RoI := 0 }

/-- The three observation arrays of one voxel, lines 255-257. -/
structure PatlakVectors where
  patlak_y : VectorWithOffset
  patlak_x : VectorWithOffset
  weights : VectorWithOffset
deriving DecidableEq

/-- Lines 255-257: `VectorWithOffset<float> ...(starting_frame-1,num_frames-1)`. -/
def patlak_vectors_init (starting_frame num_frames : Nat) : PatlakVectors :=
  { patlak_y := VectorWithOffset.create ((starting_frame - 1 : Nat) : Int) ((num_frames : Int) - 1)
    patlak_x := VectorWithOffset.create ((starting_frame - 1 : Nat) : Int) ((num_frames : Int) - 1)
    weights := VectorWithOffset.create ((starting_frame - 1 : Nat) : Int) ((num_frames : Int) - 1) }

/-- The body of the per-voxel frame loop, lines 260-277, for the voxel `(k, j, i)` and one
`frame_num`. `dyn_image frame_num k j i` is `dyn_image[frame_num][k][j][i]`. -/
def voxel_frame_body (fs : FrameState) (bv : ℚ) (dyn_image : Nat → Int → Int → Int → ℚ)
    (g : Grid) (k j i : Int) (st : PatlakVectors × RoIState) (frame_num : Nat) :
    PatlakVectors × RoIState :=
  let slot : Int := ((frame_num - 1 : Nat) : Int)
  let patlak_y := st.1.patlak_y.set slot
    ((dyn_image frame_num k j i - bv * fs.blood_vector.getD (frame_num - 1) 0)
      / fs.plasma_vector.getD (frame_num - 1) 0)
  let patlak_x := st.1.patlak_x.set slot
    (fs.plasma_sum_vector.getD (frame_num - 1) 0 / fs.plasma_vector.getD (frame_num - 1) 0)
  let weights := st.1.weights.set slot 1
  let pv : PatlakVectors := { patlak_y := patlak_y, patlak_x := patlak_x, weights := weights }
  if in_RoI g k j i then
    (pv,
      { plasma_vector_RoI := st.2.plasma_vector_RoI.set (frame_num - 1)
          (st.2.plasma_vector_RoI.getD (frame_num - 1) 0
            + fs.plasma_vector.getD (frame_num - 1) 0)
        patlak_y_RoI := st.2.patlak_y_RoI.set (frame_num - 1)
          (st.2.patlak_y_RoI.getD (frame_num - 1) 0 + patlak_y.get slot)
        patlak_x_RoI := st.2.patlak_x_RoI.set (frame_num - 1)
          (st.2.patlak_x_RoI.getD (frame_num - 1) 0 + patlak_x.get slot)
        tissue_vector_RoI := st.2.tissue_vector_RoI.set (frame_num - 1)
          (st.2.tissue_vector_RoI.getD (frame_num - 1) 0 + dyn_image frame_num k j i)
        total_voxels_RoI := st.2.total_voxels_RoI + 1 })
  else (pv, st.2)

/-- The per-voxel frame loop of lines 255-277: the observation arrays of the voxel and the
RoI accumulators after it. -/
def voxel_frames (fs : FrameState) (bv : ℚ) (dyn_image : Nat → Int → Int → Int → ℚ)
    (g : Grid) (starting_frame num_frames : Nat) (k j i : Int) (roi : RoIState) :
    PatlakVectors × RoIState :=
  (frame_range starting_frame num_frames).foldl (voxel_frame_body fs bv dyn_image g k j i)
    (patlak_vectors_init starting_frame num_frames, roi)

/-- The outputs of `linear_regression` (declared in `stir/linear_regression.h`). -/
structure LinearFit where
  y_intersection : ℚ
  slope : ℚ
  chi_square : ℚ
  variance_of_y_intersection : ℚ
  variance_of_slope : ℚ
  covariance_of_y_intersection_with_slope : ℚ

/-- The variables that live across voxels: the RoI accumulators and the two output images. -/
structure VoxelLoopState where
  roi : RoIState
  slope_image : Int → Int → Int → ℚ
  y_intersection_image : Int → Int → Int → ℚ

/-- The assignment `image[k][j][i]=x`. -/
def image_set (image : Int → Int → Int → ℚ) (k j i : Int) (x : ℚ) : Int → Int → Int → ℚ :=
  fun k1 j1 i1 => if k1 = k ∧ j1 = j ∧ i1 = i then x else image k1 j1 i1

/-- The body of the innermost voxel loop, lines 254-288, for the voxel `(k, j, i)`. -/
def voxel_body (linear_regression : VectorWithOffset → VectorWithOffset → VectorWithOffset →
      LinearFit)
    (fs : FrameState) (bv : ℚ) (dyn_image : Nat → Int → Int → Int → ℚ) (g : Grid)
    (starting_frame num_frames : Nat) (st : VoxelLoopState) (v : Int × Int × Int) :
    VoxelLoopState :=
  let r := voxel_frames fs bv dyn_image g starting_frame num_frames v.1 v.2.1 v.2.2 st.roi
  let fit := linear_regression r.1.patlak_y r.1.patlak_x r.1.weights
  { roi := r.2
    slope_image := image_set st.slope_image v.1 v.2.1 v.2.2 fit.slope
    y_intersection_image := image_set st.y_intersection_image v.1 v.2.1 v.2.2 fit.y_intersection }

/-- The three nested voxel loops of lines 243-290. -/
def voxel_loop (linear_regression : VectorWithOffset → VectorWithOffset → VectorWithOffset →
      LinearFit)
    (fs : FrameState) (bv : ℚ) (dyn_image : Nat → Int → Int → Int → ℚ) (g : Grid)
    (starting_frame num_frames : Nat) (init : VoxelLoopState) : VoxelLoopState :=
  (index_range g.min_k_index g.max_k_index).foldl (fun st k =>
    (index_range (g.min_j_index k) (g.max_j_index k)).foldl (fun st j =>
      (index_range (g.min_i_index k j) (g.max_i_index k j)).foldl (fun st i =>
        voxel_body linear_regression fs bv dyn_image g starting_frame num_frames st (k, j, i))
        st) st) init

/-- One line of the `.tac` report, lines 303-308. -/
structure TacRow where
  frame : Nat
  time_point : ℚ
  plasma : ℚ
  tissue : ℚ
  roi_x : ℚ
  roi_y : ℚ
deriving DecidableEq

/-- The lines of the `.tac` report written by the loop of lines 302-308. -/
def tac_rows (tfd : TimeFrameDefinitions) (starting_frame num_frames : Nat) (roi : RoIState) :
    List TacRow :=
  (frame_range starting_frame num_frames).map fun frame_num =>
    { frame := frame_num
      time_point := tfd.get_start_time frame_num + (1 / 2) * tfd.get_duration frame_num
      plasma := roi.plasma_vector_RoI.getD (frame_num - 1) 0 / (roi.total_voxels_RoI : ℚ)
      tissue := roi.tissue_vector_RoI.getD (frame_num - 1) 0 / (roi.total_voxels_RoI : ℚ)
      roi_x := roi.patlak_x_RoI.getD (frame_num - 1) 0 / (roi.total_voxels_RoI : ℚ)
      roi_y := roi.patlak_y_RoI.getD (frame_num - 1) 0 / (roi.total_voxels_RoI : ℚ) }

/-! ## The frame loop as the specification words it -/

/-- The body of the frame loop as the specification describes it: the scan of a frame goes
on from the position where the scan of the previous frame stopped (a cursor shared between the
frames and never reset). Everything else is as in `frame_body`. -/
def frame_body_shared_cursor (li : List ℚ → List ℚ → ℚ) (plasma_data : List PlasmaSample)
    (tfd : TimeFrameDefinitions) (st : FrameState) (frame_num : Nat) : FrameState :=
  let sc := frame_scan_from st.cur_iter plasma_data tfd frame_num
  let plasma_vector1 :=
    st.plasma_vector.set (frame_num - 1) (li sc.plasma_frame_vector sc.time_frame_vector)
  let blood_vector1 :=
    st.blood_vector.set (frame_num - 1) (li sc.blood_frame_vector sc.time_frame_vector)
  let plasma_frame_sum := st.plasma_frame_sum + plasma_vector1.getD (frame_num - 1) 0
  let plasma_sum_vector := st.plasma_sum_vector.set (frame_num - 1) plasma_frame_sum
  { plasma_vector :=
      plasma_vector1.set (frame_num - 1)
        (plasma_vector1.getD (frame_num - 1) 0 / tfd.get_duration frame_num)
    blood_vector :=
      blood_vector1.set (frame_num - 1)
        (blood_vector1.getD (frame_num - 1) 0 / tfd.get_duration frame_num)
    plasma_sum_vector := plasma_sum_vector
    plasma_frame_sum := plasma_frame_sum
    cur_iter := sc.cur_iter
    total_examined := st.total_examined + sc.examined }

/-- The frame loop with the shared cursor of the specification. -/
def integrate_frames_shared_cursor (li : List ℚ → List ℚ → ℚ)
    (plasma_data : List PlasmaSample) (tfd : TimeFrameDefinitions) : FrameState :=
  (List.range' 1 tfd.get_num_frames).foldl (frame_body_shared_cursor li plasma_data tfd)
    (frame_state_init tfd.get_num_frames)

/-! ## `main` -/

/-- The class `Succeeded` of `stir/Succeeded.h`. -/
inductive Succeeded where
  | yes
  | no
deriving DecidableEq

/-- How a run of `main` ends: with one of the two `return` values, or inside `error(...)`. -/
inductive ExitStatus where
  | EXIT_SUCCESS
  | EXIT_FAILURE
  | fatal_error (message : String)
deriving DecidableEq

/-- The observable steps of a run, in the order `main` takes them. -/
inductive Event where
  | usage_printed
  | dynamic_image_read
  | plasma_data_read
  | frames_integrated
  | voxels_regressed
  | tac_written
  | image_write_attempted (filename : String) (result : Succeeded)
deriving DecidableEq

/-- The library routines `main` calls and whose source is not available, as parameters. -/
structure Externals where
  linear_integral : List ℚ → List ℚ → ℚ
  linear_regression : VectorWithOffset → VectorWithOffset → VectorWithOffset → LinearFit
  shift_time : ℚ → List PlasmaSample → List PlasmaSample
  decay_correct_PlasmaData : ℚ → List PlasmaSample → List PlasmaSample
  calibrate_frames : (Nat → Int → Int → Int → ℚ) → (Nat → Int → Int → Int → ℚ)
  decay_correct_frames : ℚ → TimeFrameDefinitions → (Nat → Int → Int → Int → ℚ) →
    (Nat → Int → Int → Int → ℚ)
  write_basic_interfile : String → (Int → Int → Int → ℚ) → Succeeded

/-- The command line and the contents of the two input files. `argv3`..`argv7` are the values
`atof`/`atoi` return for the optional arguments (read only when `argc` says they exist),
`input_string` is `argv[1]` after `replace_extension(input_string, "")`. -/
structure Inputs where
  argc : Nat
  argv3 : ℚ
  argv4 : ℚ
  argv5 : Int
  argv6 : Int
  argv7 : Int
  input_string : String
  time_frame_definitions : TimeFrameDefinitions
  grid : Grid
  dyn_image : Nat → Int → Int → Int → ℚ
  plasma_data : List PlasmaSample

/-- What a run leaves behind: the steps taken, how it ended, and (when the loops ran) the
frame totals, the voxel-loop state and the report. -/
structure Run where
  events : List Event
  exit_status : ExitStatus
  frame_totals : Option FrameState
  voxel_state : Option VoxelLoopState
  tac : Option (List TacRow)

/-- Modelled from the spec: `error` (declared in `stir/utilities.h`, whose source is not
available) reports a fatal error and aborts the whole run: the run ends there, after the steps
`events` taken so far, and nothing that follows the call is executed. -/
def error (message : String) (events : List Event) : Run :=
  { events := events, exit_status := ExitStatus.fatal_error message,
    frame_totals := none, voxel_state := none, tac := none }

/-- The message of the `error` call of line 88. -/
def frame_guard_message : String :=
  "Current Patlak implementation skips the first 10 frames, but num_frames<=13. /n -->Give starting_frame input value less than 10!"

/-- The message of the `error` call of line 114. -/
def calibration_message : String :=
  "The input image seems not to be calibrated"

/-- Line 89: `argc>=6 ? atoi(argv[5]) : num_frames-13+1`, an `unsigned int`. The `int` of
`atoi` is converted to `unsigned`, and the default is computed in arithmetic modulo `2 ^ 32`. -/
def starting_frame_of (argc : Nat) (argv5 : Int) (num_frames : Nat) : Nat :=
  if argc ≥ 6 then (argv5 % (2 ^ 32 : Int)).toNat
  else ((num_frames + 2 ^ 32 - 13) % 2 ^ 32 + 1) % 2 ^ 32

/-- Lines 313-322: the two writes and the exit status. The result of writing the
`y_intersection` image is stored in the variable named `slope_success` and the result of
writing the `slope` image in the variable named `y_intersection_success`. -/
def write_images (write_basic_interfile : String → (Int → Int → Int → ℚ) → Succeeded)
    (y_intersection_string slope_string : String)
    (y_intersection_image slope_image : Int → Int → Int → ℚ) : List Event × ExitStatus :=
  let slope_success := write_basic_interfile y_intersection_string y_intersection_image
  let y_intersection_success := write_basic_interfile slope_string slope_image
  ([Event.image_write_attempted y_intersection_string slope_success,
    Event.image_write_attempted slope_string y_intersection_success],
   if y_intersection_success = Succeeded.yes ∧ slope_success = Succeeded.yes then
     ExitStatus.EXIT_SUCCESS
   else ExitStatus.EXIT_FAILURE)

/-- The function `main`, lines 56-323. -/
def main (ext : Externals) (inp : Inputs) : Run :=
  if inp.argc < 3 ∨ inp.argc > 8 then
    { events := [Event.usage_printed], exit_status := ExitStatus.EXIT_FAILURE,
      frame_totals := none, voxel_state := none, tac := none }
  else
    let time_shift : ℚ := if inp.argc ≥ 4 then inp.argv3 else 13
    let bv : ℚ := if inp.argc ≥ 5 then inp.argv4 else 5 / 100
    let is_decay_corrected : Bool := if inp.argc ≥ 7 then decide (inp.argv6 ≠ 0) else false
    let is_calibrated : Bool := if inp.argc ≥ 8 then decide (inp.argv7 ≠ 0) else true
    let tfd := inp.time_frame_definitions
    let num_frames := tfd.get_num_frames
    if num_frames ≤ 13 then
      error frame_guard_message [Event.dynamic_image_read]
    else
      let starting_frame := starting_frame_of inp.argc inp.argv5 num_frames
      let slope_string := "slope_" ++ inp.input_string
      let y_intersection_string := "y_intersection_" ++ inp.input_string
      let plasma_data := ext.shift_time time_shift inp.plasma_data
      if !is_calibrated then
        error calibration_message [Event.dynamic_image_read, Event.plasma_data_read]
      else
        let dyn_image := ext.calibrate_frames inp.dyn_image
        let dyn_image :=
          if !is_decay_corrected then ext.decay_correct_frames (65862 / 10) tfd dyn_image
          else dyn_image
        let plasma_data :=
          if !is_decay_corrected then ext.decay_correct_PlasmaData (65862 / 10) plasma_data
          else plasma_data
        let fs := integrate_frames ext.linear_integral plasma_data tfd
        let vs := voxel_loop ext.linear_regression fs bv dyn_image inp.grid starting_frame
          num_frames
          { roi := roi_init num_frames, slope_image := inp.dyn_image 1,
            y_intersection_image := inp.dyn_image 1 }
        let tac := tac_rows tfd starting_frame num_frames vs.roi
        let w := write_images ext.write_basic_interfile y_intersection_string slope_string
          vs.y_intersection_image vs.slope_image
        { events := [Event.dynamic_image_read, Event.plasma_data_read, Event.frames_integrated,
            Event.voxels_regressed, Event.tac_written] ++ w.1,
          exit_status := w.2,
          frame_totals := some fs, voxel_state := some vs, tac := some tac }

/-! ## Quantities the theorems speak of -/

/-- The sum of the raw plasma integrals of the frames `1..m`. -/
def raw_plasma_sum (li : List ℚ → List ℚ → ℚ) (plasma_data : List PlasmaSample)
    (tfd : TimeFrameDefinitions) (m : Nat) : ℚ :=
  ((List.range' 1 m).map (raw_plasma_integral li plasma_data tfd)).sum

/-- The samples of the window of a frame: those with
`frame_start_time ≤ time < frame_end_time`, in their original order. -/
def frame_window (plasma_data : List PlasmaSample) (tfd : TimeFrameDefinitions)
    (frame_num : Nat) : List PlasmaSample :=
  plasma_data.filter fun s =>
    decide (tfd.get_start_time frame_num ≤ s.time_in_s) &&
      decide (s.time_in_s < tfd.get_end_time frame_num)

/-- The samples the scan of lines 154-190 reads before it stops: the longest run of leading
samples with `time < frame_end_time`. -/
def scanned_run (frame_end_time : ℚ) (l : List PlasmaSample) : List PlasmaSample :=
  l.takeWhile fun s => decide (s.time_in_s < frame_end_time)

/-- A plasma series ordered by non-decreasing time. -/
def time_ordered (plasma_data : List PlasmaSample) : Prop :=
  plasma_data.Pairwise fun a b => a.time_in_s ≤ b.time_in_s

instance (plasma_data : List PlasmaSample) : Decidable (time_ordered plasma_data) := by
  unfold time_ordered; infer_instance

/-- The shape of an observation array of lines 255-257: slots `starting_frame-1` to
`num_frames-1`, one per frame of the regression. -/
def observation_shape (starting_frame num_frames : Nat) (v : VectorWithOffset) : Prop :=
  v.min_index = ((starting_frame - 1 : Nat) : Int) ∧
  v.max_index = (num_frames : Int) - 1 ∧
  v.get_length = num_frames + 1 - starting_frame

/-- The Patlak ordinate of line 261-262 for the voxel `(k, j, i)` at `frame_num`. -/
def patlak_y_value (fs : FrameState) (bv : ℚ) (dyn_image : Nat → Int → Int → Int → ℚ)
    (k j i : Int) (frame_num : Nat) : ℚ :=
  (dyn_image frame_num k j i - bv * fs.blood_vector.getD (frame_num - 1) 0)
    / fs.plasma_vector.getD (frame_num - 1) 0

/-- The Patlak abscissa of line 263 at `frame_num`. -/
def patlak_x_value (fs : FrameState) (frame_num : Nat) : ℚ :=
  fs.plasma_sum_vector.getD (frame_num - 1) 0 / fs.plasma_vector.getD (frame_num - 1) 0

/-- The voxels that satisfy the condition of lines 266-268, in loop order. -/
def RoI_voxels (g : Grid) : List (Int × Int × Int) :=
  (voxels g).filter fun v => in_RoI g v.1 v.2.1 v.2.2

/-- The four RoI vectors have `n` slots. -/
def roi_sized (n : Nat) (roi : RoIState) : Prop :=
  roi.patlak_y_RoI.length = n ∧ roi.patlak_x_RoI.length = n ∧
  roi.tissue_vector_RoI.length = n ∧ roi.plasma_vector_RoI.length = n

/-- At slot `n` the accumulators of `r` are those of `roi` plus `dp` (plasma), `dy`
(Patlak ordinate), `dx` (Patlak abscissa) and `dt` (tissue). -/
def roi_slot_plus (roi r : RoIState) (n : Nat) (dp dy dx dt : ℚ) : Prop :=
  r.plasma_vector_RoI.getD n 0 = roi.plasma_vector_RoI.getD n 0 + dp ∧
  r.patlak_y_RoI.getD n 0 = roi.patlak_y_RoI.getD n 0 + dy ∧
  r.patlak_x_RoI.getD n 0 = roi.patlak_x_RoI.getD n 0 + dx ∧
  r.tissue_vector_RoI.getD n 0 = roi.tissue_vector_RoI.getD n 0 + dt

/-- A grid whose `j` and `i` index ranges are the same in every row: a cuboid with the index
ranges `min_k..max_k`, `min_j..max_j` and `min_i..max_i`. -/
def cuboid_grid (min_k max_k min_j max_j min_i max_i : Int) : Grid :=
  { min_k_index := min_k, max_k_index := max_k
    min_j_index := fun _ => min_j, max_j_index := fun _ => max_j
    min_i_index := fun _ _ => min_i, max_i_index := fun _ _ => max_i }

/-- The number of indices of the axis `min_index..max_index` that satisfy the band condition
`abs(max_index+min_index-2*k)<=6`. -/
def band_count (min_index max_index : Int) : Nat :=
  ((index_range min_index max_index).filter (in_band min_index max_index)).length

/-! ## Concrete inputs -/

/-- The plasma series of the frame-integration scenario: `(time, plasma, blood)`. -/
def scenario_plasma : List PlasmaSample := [⟨0, 10, 5⟩, ⟨60, 8, 4⟩, ⟨120, 6, 3⟩]

/-- The single frame `[0, 120)` of the frame-integration scenario. -/
def scenario_frames : TimeFrameDefinitions := ⟨[(0, 120)]⟩

/-- Fourteen frames of ten seconds: frame `f` is `[10 (f - 1), 10 f)`. -/
def ten_second_frames : TimeFrameDefinitions :=
  ⟨[(0, 10), (10, 20), (20, 30), (30, 40), (40, 50), (50, 60), (60, 70), (70, 80), (80, 90),
    (90, 100), (100, 110), (110, 120), (120, 130), (130, 140)]⟩

/-- Fourteen frames of ten seconds that all start after the last sample of
`scenario_plasma`: frame `f` is `[190 + 10 f, 200 + 10 f)`. -/
def late_frames : TimeFrameDefinitions :=
  ⟨[(200, 210), (210, 220), (220, 230), (230, 240), (240, 250), (250, 260), (260, 270),
    (270, 280), (280, 290), (290, 300), (300, 310), (310, 320), (320, 330), (330, 340)]⟩

/-- A grid with the single voxel `(0, 0, 0)`. -/
def single_voxel_grid : Grid :=
  { min_k_index := 0, max_k_index := 0
    min_j_index := fun _ => 0, max_j_index := fun _ => 0
    min_i_index := fun _ _ => 0, max_i_index := fun _ _ => 0 }

/-- Library routines for the concrete runs: the trapezoidal `linear_integral`, a regression
that returns zeros, transforms that leave the data as they are, and writes that succeed for the
`y_intersection` image (`write_y`) and for the `slope` image (`write_slope`) as told. -/
def sample_externals (write_y write_slope : Succeeded) : Externals :=
  { linear_integral := linear_integral
    linear_regression := fun _ _ _ => ⟨0, 0, 0, 0, 0, 0⟩
    shift_time := fun _ p => p
    decay_correct_PlasmaData := fun _ p => p
    calibrate_frames := fun d => d
    decay_correct_frames := fun _ _ d => d
    write_basic_interfile := fun name _ =>
      if name = "y_intersection_scan" then write_y else write_slope }

/-- A command line with the two file names only (`argc = 3`), a one-voxel image named `scan`
with the given frames and activity 100 everywhere, and the given plasma series. -/
def sample_inputs (tfd : TimeFrameDefinitions) (plasma_data : List PlasmaSample) : Inputs :=
  { argc := 3, argv3 := 0, argv4 := 0, argv5 := 0, argv6 := 0, argv7 := 0
    input_string := "scan"
    time_frame_definitions := tfd
    grid := single_voxel_grid
    dyn_image := fun _ _ _ _ => 100
    plasma_data := plasma_data }

/-- A plasma series with two samples in every frame of `ten_second_frames`, at 1 s and 2 s
after the frame start, with plasma counts 80 and blood counts 40 throughout. -/
def steady_plasma : List PlasmaSample :=
  [⟨1, 80, 40⟩, ⟨2, 80, 40⟩, ⟨11, 80, 40⟩, ⟨12, 80, 40⟩, ⟨21, 80, 40⟩, ⟨22, 80, 40⟩,
   ⟨31, 80, 40⟩, ⟨32, 80, 40⟩, ⟨41, 80, 40⟩, ⟨42, 80, 40⟩, ⟨51, 80, 40⟩, ⟨52, 80, 40⟩,
   ⟨61, 80, 40⟩, ⟨62, 80, 40⟩, ⟨71, 80, 40⟩, ⟨72, 80, 40⟩, ⟨81, 80, 40⟩, ⟨82, 80, 40⟩,
   ⟨91, 80, 40⟩, ⟨92, 80, 40⟩, ⟨101, 80, 40⟩, ⟨102, 80, 40⟩, ⟨111, 80, 40⟩, ⟨112, 80, 40⟩,
   ⟨121, 80, 40⟩, ⟨122, 80, 40⟩, ⟨131, 80, 40⟩, ⟨132, 80, 40⟩]

/-- A plasma series with two samples in every frame of `ten_second_frames`, at 1 s and 2 s
after the frame start: plasma counts 80 and blood counts 40 in the frames 1 to 13, plasma counts
-1 and blood counts 0 in frame 14. -/
def dipping_plasma : List PlasmaSample :=
  [⟨1, 80, 40⟩, ⟨2, 80, 40⟩, ⟨11, 80, 40⟩, ⟨12, 80, 40⟩, ⟨21, 80, 40⟩, ⟨22, 80, 40⟩,
   ⟨31, 80, 40⟩, ⟨32, 80, 40⟩, ⟨41, 80, 40⟩, ⟨42, 80, 40⟩, ⟨51, 80, 40⟩, ⟨52, 80, 40⟩,
   ⟨61, 80, 40⟩, ⟨62, 80, 40⟩, ⟨71, 80, 40⟩, ⟨72, 80, 40⟩, ⟨81, 80, 40⟩, ⟨82, 80, 40⟩,
   ⟨91, 80, 40⟩, ⟨92, 80, 40⟩, ⟨101, 80, 40⟩, ⟨102, 80, 40⟩, ⟨111, 80, 40⟩, ⟨112, 80, 40⟩,
   ⟨121, 80, 40⟩, ⟨122, 80, 40⟩, ⟨131, -1, 0⟩, ⟨132, -1, 0⟩]

/-! ## Auxiliary facts on vectors and on the frame loop -/

theorem getD_set_eq (l : List ℚ) (i : Nat) (a : ℚ) (h : i < l.length) :
    (l.set i a).getD i 0 = a := by
  simp [List.getD_eq_getElem?_getD, List.getElem?_set, h]

theorem getD_set_ne (l : List ℚ) (i j : Nat) (a : ℚ) (h : i ≠ j) :
    (l.set i a).getD j 0 = l.getD j 0 := by
  simp [List.getD_eq_getElem?_getD, List.getElem?_set, h]

theorem range_one_succ (m : Nat) : List.range' 1 (m + 1) = List.range' 1 m ++ [m + 1] := by
  rw [List.range'_1_concat, Nat.add_comm 1 m]

/-- One more iteration of the frame loop. -/
theorem integrate_frames_upto_succ (li : List ℚ → List ℚ → ℚ) (plasma_data : List PlasmaSample)
    (tfd : TimeFrameDefinitions) (n m : Nat) :
    integrate_frames_upto li plasma_data tfd n (m + 1) =
      frame_body li plasma_data tfd (integrate_frames_upto li plasma_data tfd n m) (m + 1) := by
  simp [integrate_frames_upto, range_one_succ, List.foldl_append]

theorem raw_plasma_sum_succ (li : List ℚ → List ℚ → ℚ) (plasma_data : List PlasmaSample)
    (tfd : TimeFrameDefinitions) (m : Nat) :
    raw_plasma_sum li plasma_data tfd (m + 1) =
      raw_plasma_sum li plasma_data tfd m + raw_plasma_integral li plasma_data tfd (m + 1) := by
  simp [raw_plasma_sum, range_one_succ, List.sum_append]

/-- The invariant of the frame loop after `m ≤ n` iterations on vectors of `n` slots. -/
theorem integrate_frames_upto_inv (li : List ℚ → List ℚ → ℚ) (plasma_data : List PlasmaSample)
    (tfd : TimeFrameDefinitions) (n m : Nat) (hm : m ≤ n) :
    (integrate_frames_upto li plasma_data tfd n m).plasma_vector.length = n ∧
    (integrate_frames_upto li plasma_data tfd n m).blood_vector.length = n ∧
    (integrate_frames_upto li plasma_data tfd n m).plasma_sum_vector.length = n ∧
    (integrate_frames_upto li plasma_data tfd n m).plasma_frame_sum =
      raw_plasma_sum li plasma_data tfd m ∧
    ∀ f, 1 ≤ f → f ≤ m →
      (integrate_frames_upto li plasma_data tfd n m).plasma_sum_vector.getD (f - 1) 0 =
        raw_plasma_sum li plasma_data tfd f ∧
      (integrate_frames_upto li plasma_data tfd n m).plasma_vector.getD (f - 1) 0 =
        raw_plasma_integral li plasma_data tfd f / tfd.get_duration f ∧
      (integrate_frames_upto li plasma_data tfd n m).blood_vector.getD (f - 1) 0 =
        raw_blood_integral li plasma_data tfd f / tfd.get_duration f := by
  induction m with
  | zero =>
    refine ⟨?_, ?_, ?_, ?_, ?_⟩
    · simp [integrate_frames_upto, frame_state_init]
    · simp [integrate_frames_upto, frame_state_init]
    · simp [integrate_frames_upto, frame_state_init]
    · simp [integrate_frames_upto, frame_state_init, raw_plasma_sum]
    · intro f h1 h2; omega
  | succ m ih =>
    obtain ⟨hp, hb, hs, hsum, hall⟩ := ih (by omega)
    rw [integrate_frames_upto_succ]
    have hlt : m < n := by omega
    refine ⟨?_, ?_, ?_, ?_, ?_⟩
    · simp [frame_body, hp]
    · simp [frame_body, hb]
    · simp [frame_body, hs]
    · simp only [frame_body, Nat.add_sub_cancel]
      rw [getD_set_eq _ _ _ (by omega), hsum, raw_plasma_sum_succ]
      rfl
    · intro f h1 h2
      by_cases hf : f = m + 1
      · subst hf
        simp only [frame_body, Nat.add_sub_cancel]
        refine ⟨?_, ?_, ?_⟩
        · rw [getD_set_eq _ _ _ (by omega), getD_set_eq _ _ _ (by omega), hsum,
            raw_plasma_sum_succ]
          rfl
        · rw [getD_set_eq _ _ _ (by simp; omega), getD_set_eq _ _ _ (by omega)]
          rfl
        · rw [getD_set_eq _ _ _ (by simp; omega), getD_set_eq _ _ _ (by omega)]
          rfl
      · obtain ⟨a, b, c⟩ := hall f h1 (by omega)
        have hne : m ≠ f - 1 := by omega
        simp only [frame_body, Nat.add_sub_cancel]
        refine ⟨?_, ?_, ?_⟩
        · rw [getD_set_ne _ _ _ _ hne, a]
        · rw [getD_set_ne _ _ _ _ hne, getD_set_ne _ _ _ _ hne, b]
        · rw [getD_set_ne _ _ _ _ hne, getD_set_ne _ _ _ _ hne, c]

/-! ## The scan of one frame -/

/-- What the scan of lines 154-190 leaves in its state, for any entry state: the collected
vectors grow by the samples of the scanned run that are not before the frame start, the cursor
advances over the scanned run, and one more sample is examined when the scan stops on a
sample. -/
theorem plasma_scan_spec (fs fe : ℚ) (l : List PlasmaSample) (st : ScanState) :
    (plasma_scan fs fe l st).time_frame_vector = st.time_frame_vector ++
      ((scanned_run fe l).filter fun s => decide (fs ≤ s.time_in_s)).map (·.time_in_s) ∧
    (plasma_scan fs fe l st).plasma_frame_vector = st.plasma_frame_vector ++
      ((scanned_run fe l).filter fun s => decide (fs ≤ s.time_in_s)).map
        (·.plasma_counts_in_kBq) ∧
    (plasma_scan fs fe l st).blood_frame_vector = st.blood_frame_vector ++
      ((scanned_run fe l).filter fun s => decide (fs ≤ s.time_in_s)).map
        (·.blood_counts_in_kBq) ∧
    (plasma_scan fs fe l st).cur_iter = st.cur_iter + (scanned_run fe l).length ∧
    (plasma_scan fs fe l st).examined =
      st.examined + min l.length ((scanned_run fe l).length + 1) := by
  induction l generalizing st with
  | nil => simp [plasma_scan, scanned_run]
  | cons s rest ih =>
    by_cases h1 : s.time_in_s < fe
    · by_cases h2 : s.time_in_s < fs
      · have h3 : ¬ fs ≤ s.time_in_s := not_le.mpr h2
        simp only [plasma_scan, h1, h2, if_true]
        refine ⟨?_, ?_, ?_, ?_, ?_⟩
        · rw [(ih _).1]; simp [scanned_run, List.takeWhile_cons, h1, List.filter_cons, h3]
        · rw [(ih _).2.1]; simp [scanned_run, List.takeWhile_cons, h1, List.filter_cons, h3]
        · rw [(ih _).2.2.1]; simp [scanned_run, List.takeWhile_cons, h1, List.filter_cons, h3]
        · rw [(ih _).2.2.2.1]; simp [scanned_run, List.takeWhile_cons, h1]; omega
        · rw [(ih _).2.2.2.2]; simp [scanned_run, List.takeWhile_cons, h1]; omega
      · have h3 : fs ≤ s.time_in_s := not_lt.mp h2
        simp only [plasma_scan, h1, h2, if_true, if_false]
        refine ⟨?_, ?_, ?_, ?_, ?_⟩
        · rw [(ih _).1]; simp [scanned_run, List.takeWhile_cons, h1, List.filter_cons, h3]
        · rw [(ih _).2.1]; simp [scanned_run, List.takeWhile_cons, h1, List.filter_cons, h3]
        · rw [(ih _).2.2.1]; simp [scanned_run, List.takeWhile_cons, h1, List.filter_cons, h3]
        · rw [(ih _).2.2.2.1]; simp [scanned_run, List.takeWhile_cons, h1]; omega
        · rw [(ih _).2.2.2.2]; simp [scanned_run, List.takeWhile_cons, h1]; omega
    · simp [plasma_scan, scanned_run, List.takeWhile_cons, h1]

/-- On a series ordered by time the scanned run is the set of all samples before the frame
end. -/
theorem scanned_run_eq_filter (fe : ℚ) (l : List PlasmaSample) (h : time_ordered l) :
    scanned_run fe l = l.filter fun s => decide (s.time_in_s < fe) := by
  induction l with
  | nil => simp [scanned_run]
  | cons s rest ih =>
    have hp := List.pairwise_cons.mp h
    have ih1 := ih hp.2
    simp only [scanned_run] at ih1 ⊢
    by_cases h1 : s.time_in_s < fe
    · simp [List.takeWhile_cons, List.filter_cons, h1, ih1]
    · have hnone : rest.filter (fun s => decide (s.time_in_s < fe)) = [] := by
        rw [List.filter_eq_nil_iff]
        intro a ha
        have := hp.1 a ha
        simp only [decide_eq_true_eq, not_lt]
        exact le_trans (not_lt.mp h1) this
      simp [List.takeWhile_cons, List.filter_cons, h1, hnone]

/-- On a series ordered by time the three vectors the scan collects are the times, plasma
counts and blood counts of the samples of the frame window. -/
theorem frame_scan_vectors (plasma_data : List PlasmaSample) (tfd : TimeFrameDefinitions)
    (frame_num : Nat) (hord : time_ordered plasma_data) :
    (frame_scan plasma_data tfd frame_num).time_frame_vector =
      (frame_window plasma_data tfd frame_num).map (·.time_in_s) ∧
    (frame_scan plasma_data tfd frame_num).plasma_frame_vector =
      (frame_window plasma_data tfd frame_num).map (·.plasma_counts_in_kBq) ∧
    (frame_scan plasma_data tfd frame_num).blood_frame_vector =
      (frame_window plasma_data tfd frame_num).map (·.blood_counts_in_kBq) := by
  have hspec := plasma_scan_spec (tfd.get_start_time frame_num) (tfd.get_end_time frame_num)
    plasma_data scan_begin
  have hwin : ((scanned_run (tfd.get_end_time frame_num) plasma_data).filter
      fun s => decide (tfd.get_start_time frame_num ≤ s.time_in_s)) =
      frame_window plasma_data tfd frame_num := by
    rw [scanned_run_eq_filter _ _ hord, List.filter_filter]
    rfl
  rw [hwin] at hspec
  exact ⟨by simpa [frame_scan, frame_scan_from, scan_begin] using hspec.1,
    by simpa [frame_scan, frame_scan_from, scan_begin] using hspec.2.1,
    by simpa [frame_scan, frame_scan_from, scan_begin] using hspec.2.2.1⟩

/-- A frame whose window holds at least two samples of a time-ordered series gets the same raw
plasma integral from every `linear_integral` that is the trapezoidal integral on two samples or
more. -/
theorem raw_plasma_integral_of_two (li : List ℚ → List ℚ → ℚ)
    (plasma_data : List PlasmaSample) (tfd : TimeFrameDefinitions) (frame_num : Nat)
    (hli : ∀ fl tl : List ℚ, 2 ≤ fl.length → fl.length = tl.length →
      li fl tl = linear_integral fl tl)
    (hord : time_ordered plasma_data)
    (hwin : 2 ≤ (frame_window plasma_data tfd frame_num).length) :
    raw_plasma_integral li plasma_data tfd frame_num =
      raw_plasma_integral linear_integral plasma_data tfd frame_num := by
  obtain ⟨ht, hp, _⟩ := frame_scan_vectors plasma_data tfd frame_num hord
  simp only [raw_plasma_integral]
  apply hli
  · rw [hp, List.length_map]; exact hwin
  · rw [hp, ht, List.length_map, List.length_map]

/-- Every sample of the steady series has non-negative plasma counts. -/
theorem steady_plasma_nonneg : ∀ s ∈ steady_plasma, 0 ≤ s.plasma_counts_in_kBq := by
  decide

/-- The steady series is ordered by time. -/
theorem steady_plasma_ordered : time_ordered steady_plasma := by
  decide

/-- Every frame of `ten_second_frames` holds two samples of the steady series, and its raw
plasma integral is `(80 + 80) / 2 * 1 = 80`. -/
theorem steady_raw_plasma (f : Nat) (h1 : 1 ≤ f) (h2 : f ≤ 14) :
    (frame_window steady_plasma ten_second_frames f).length = 2 ∧
    raw_plasma_integral linear_integral steady_plasma ten_second_frames f = 80 := by
  constructor
  · interval_cases f <;> decide
  · interval_cases f <;>
    norm_num [raw_plasma_integral, frame_scan, frame_scan_from, plasma_scan, steady_plasma,
      ten_second_frames, scan_begin, linear_integral, TimeFrameDefinitions.get_start_time,
      TimeFrameDefinitions.get_end_time]

/-- On the steady series the cumulative plasma total of frame `f` is `80 f`. -/
theorem steady_cumulative (f : Nat) (h1 : 1 ≤ f) (h2 : f ≤ 14) :
    (integrate_frames linear_integral steady_plasma ten_second_frames).plasma_sum_vector.getD
      (f - 1) 0 = 80 * (f : ℚ) := by
  have hsum : ∀ m, m ≤ 14 →
      raw_plasma_sum linear_integral steady_plasma ten_second_frames m = 80 * (m : ℚ) := by
    intro m
    induction m with
    | zero => intro _; simp [raw_plasma_sum]
    | succ m ih =>
      intro hm
      rw [raw_plasma_sum_succ, ih (by omega), (steady_raw_plasma (m + 1) (by omega) hm).2]
      push_cast
      ring
  obtain ⟨_, _, _, _, hall⟩ :=
    integrate_frames_upto_inv linear_integral steady_plasma ten_second_frames 14 14 (le_refl _)
  have hn : ten_second_frames.get_num_frames = 14 := rfl
  simp only [integrate_frames, hn]
  rw [(hall f h1 h2).1, hsum f h2]

/-- The dipping series: every frame of `ten_second_frames` holds two of its samples; the raw
plasma integral is 80 in the frames 1 to 13 and `(-1 + -1) / 2 * 1 = -1` in frame 14. -/
theorem dipping_raw_plasma (f : Nat) (h1 : 1 ≤ f) (h2 : f ≤ 14) :
    (frame_window dipping_plasma ten_second_frames f).length = 2 ∧
    raw_plasma_integral linear_integral dipping_plasma ten_second_frames f =
      (if f = 14 then -1 else 80) := by
  constructor
  · interval_cases f <;> decide
  · interval_cases f <;>
    norm_num [raw_plasma_integral, frame_scan, frame_scan_from, plasma_scan, dipping_plasma,
      ten_second_frames, scan_begin, linear_integral, TimeFrameDefinitions.get_start_time,
      TimeFrameDefinitions.get_end_time]

/-- On the dipping series the cumulative plasma total is 1040 at frame 13 and 1039 at
frame 14. -/
theorem dipping_cumulative :
    (integrate_frames linear_integral dipping_plasma ten_second_frames).plasma_sum_vector.getD
      (13 - 1) 0 = 1040 ∧
    (integrate_frames linear_integral dipping_plasma ten_second_frames).plasma_sum_vector.getD
      (14 - 1) 0 = 1039 := by
  have hsum : ∀ m, m ≤ 13 →
      raw_plasma_sum linear_integral dipping_plasma ten_second_frames m = 80 * (m : ℚ) := by
    intro m
    induction m with
    | zero => intro _; simp [raw_plasma_sum]
    | succ m ih =>
      intro hm
      rw [raw_plasma_sum_succ, ih (by omega),
        (dipping_raw_plasma (m + 1) (by omega) (by omega)).2, if_neg (by omega)]
      push_cast
      ring
  obtain ⟨_, _, _, _, hall⟩ :=
    integrate_frames_upto_inv linear_integral dipping_plasma ten_second_frames 14 14 (le_refl _)
  have hn : ten_second_frames.get_num_frames = 14 := rfl
  have h13 := (hall 13 (by decide) (by decide)).1
  have h14 := (hall 14 (by decide) (by decide)).1
  have s13 := hsum 13 (le_refl _)
  have s14 : raw_plasma_sum linear_integral dipping_plasma ten_second_frames (13 + 1) =
      raw_plasma_sum linear_integral dipping_plasma ten_second_frames 13 +
        raw_plasma_integral linear_integral dipping_plasma ten_second_frames (13 + 1) :=
    raw_plasma_sum_succ linear_integral dipping_plasma ten_second_frames 13
  have r14 := (dipping_raw_plasma 14 (by decide) (le_refl _)).2
  simp only [integrate_frames, hn]
  constructor
  · rw [h13, s13]
    norm_num
  · rw [h14, s14, s13, r14]
    norm_num

/-! ## Frame integration: the claims -/

/-- C9. Sample selection per frame: on a plasma series ordered by non-decreasing time and a
frame with start ≤ end, the time, plasma and blood vectors the scan hands to `linear_integral`
hold exactly the samples with `frame_start ≤ time < frame_end`, in their original order; in
particular no sample whose time equals the frame end is among them. -/
theorem frame_scan_collects_window (plasma_data : List PlasmaSample)
    (tfd : TimeFrameDefinitions) (frame_num : Nat) (hord : time_ordered plasma_data)
    (_hframe : tfd.get_start_time frame_num ≤ tfd.get_end_time frame_num) :
    (frame_scan plasma_data tfd frame_num).time_frame_vector =
      (frame_window plasma_data tfd frame_num).map (·.time_in_s) ∧
    (frame_scan plasma_data tfd frame_num).plasma_frame_vector =
      (frame_window plasma_data tfd frame_num).map (·.plasma_counts_in_kBq) ∧
    (frame_scan plasma_data tfd frame_num).blood_frame_vector =
      (frame_window plasma_data tfd frame_num).map (·.blood_counts_in_kBq) ∧
    (∀ s ∈ plasma_data, s ∈ frame_window plasma_data tfd frame_num ↔
      (tfd.get_start_time frame_num ≤ s.time_in_s ∧
        s.time_in_s < tfd.get_end_time frame_num)) ∧
    ∀ s ∈ frame_window plasma_data tfd frame_num, s.time_in_s ≠ tfd.get_end_time frame_num := by
  have hspec := plasma_scan_spec (tfd.get_start_time frame_num) (tfd.get_end_time frame_num)
    plasma_data scan_begin
  have hwin : ((scanned_run (tfd.get_end_time frame_num) plasma_data).filter
      fun s => decide (tfd.get_start_time frame_num ≤ s.time_in_s)) =
      frame_window plasma_data tfd frame_num := by
    rw [scanned_run_eq_filter _ _ hord, List.filter_filter]
    rfl
  rw [hwin] at hspec
  refine ⟨?_, ?_, ?_, ?_, ?_⟩
  · simpa [frame_scan, frame_scan_from, scan_begin] using hspec.1
  · simpa [frame_scan, frame_scan_from, scan_begin] using hspec.2.1
  · simpa [frame_scan, frame_scan_from, scan_begin] using hspec.2.2.1
  · intro s hs
    simp [frame_window, hs]
  · intro s hs
    have : s.time_in_s < tfd.get_end_time frame_num := by
      simp [frame_window] at hs
      exact hs.2.2
    exact ne_of_lt this

/-- Witness of C9 on the scenario series and its frame `[0, 120)`: the sample at time 120 is
left out. -/
theorem frame_scan_collects_window_witness :
    time_ordered scenario_plasma ∧
    scenario_frames.get_start_time 1 ≤ scenario_frames.get_end_time 1 ∧
    (frame_scan scenario_plasma scenario_frames 1).time_frame_vector =
      (frame_window scenario_plasma scenario_frames 1).map (·.time_in_s) :=
  ⟨by norm_num [time_ordered, scenario_plasma],
   by simp [scenario_frames, TimeFrameDefinitions.get_start_time,
     TimeFrameDefinitions.get_end_time],
   (frame_scan_collects_window scenario_plasma scenario_frames 1
     (by norm_num [time_ordered, scenario_plasma])
     (by simp [scenario_frames, TimeFrameDefinitions.get_start_time,
       TimeFrameDefinitions.get_end_time])).1⟩

/-- The scan of a frame never examines more samples than the series has. -/
theorem frame_scan_examined_le (plasma_data : List PlasmaSample) (tfd : TimeFrameDefinitions)
    (frame_num : Nat) : (frame_scan plasma_data tfd frame_num).examined ≤ plasma_data.length := by
  have h := (plasma_scan_spec (tfd.get_start_time frame_num) (tfd.get_end_time frame_num)
    plasma_data scan_begin).2.2.2.2
  simp only [frame_scan, frame_scan_from, List.drop_zero]
  have h0 : ({ scan_begin with cur_iter := 0 } : ScanState) = scan_begin := rfl
  rw [h0, h]
  simp only [scan_begin, Nat.zero_add]
  exact Nat.min_le_left _ _

/-- The ghost counter after `m` frames is at most `m` times the number of samples. -/
theorem total_examined_upto_le (li : List ℚ → List ℚ → ℚ) (plasma_data : List PlasmaSample)
    (tfd : TimeFrameDefinitions) (n m : Nat) :
    (integrate_frames_upto li plasma_data tfd n m).total_examined ≤ m * plasma_data.length := by
  induction m with
  | zero => simp [integrate_frames_upto, frame_state_init]
  | succ m ih =>
    rw [integrate_frames_upto_succ]
    have h := frame_scan_examined_le plasma_data tfd (m + 1)
    simp only [frame_body]
    rw [Nat.succ_mul]
    omega

/-- C10, counterexample. Three samples at 0 s, 60 s and 120 s and fourteen frames that all lie
after them: every frame's scan starts again at the first sample and examines all three samples,
42 in total, more than the 3 + 14 the claim allows; the frame loop with the shared cursor of the
specification would examine 3. -/
theorem shared_cursor_bound_fails :
    ¬ ((integrate_frames linear_integral scenario_plasma late_frames).total_examined ≤
        scenario_plasma.length + late_frames.get_num_frames) ∧
    (integrate_frames linear_integral scenario_plasma late_frames).total_examined = 42 ∧
    (frame_scan scenario_plasma late_frames 1).cur_iter = 3 ∧
    (frame_scan scenario_plasma late_frames 2).examined = 3 ∧
    (integrate_frames_shared_cursor linear_integral scenario_plasma late_frames).total_examined
      = 3 := by
  refine ⟨?_, ?_, ?_, ?_, ?_⟩ <;> decide

/-- C10, amended. The cursor is reset at every frame: the body of the frame loop does not
depend on where the previous scan left `cur_iter`, every frame's scan is the scan from the first
sample, it examines at most all samples, and the number of samples examined over all frames is
at most the number of frames times the number of samples. -/
theorem cursor_reset_every_frame (li : List ℚ → List ℚ → ℚ) (plasma_data : List PlasmaSample)
    (tfd : TimeFrameDefinitions) :
    (∀ (st : FrameState) (c frame_num : Nat),
      frame_body li plasma_data tfd { st with cur_iter := c } frame_num =
        frame_body li plasma_data tfd st frame_num) ∧
    (∀ frame_num, frame_scan plasma_data tfd frame_num =
      plasma_scan (tfd.get_start_time frame_num) (tfd.get_end_time frame_num) plasma_data
        scan_begin) ∧
    (∀ frame_num, (frame_scan plasma_data tfd frame_num).examined ≤ plasma_data.length) ∧
    (integrate_frames li plasma_data tfd).total_examined ≤
      tfd.get_num_frames * plasma_data.length := by
  refine ⟨?_, ?_, ?_, ?_⟩
  · intro st c frame_num
    rfl
  · intro frame_num
    rfl
  · exact frame_scan_examined_le plasma_data tfd
  · exact total_examined_upto_le li plasma_data tfd _ _

/-- C5. Running sum of the frame loop, for any `linear_integral`: for every frame
`f` in `1..num_frames` the cumulative total of `f` is the cumulative total of `f - 1` (0 for
`f = 1`) plus the raw integral of `f`; the cumulative total of the last frame is the sum of the
raw integrals of all frames; and the stored plasma and blood totals of `f` are the raw integrals
of `f` divided by the duration of `f`. -/
theorem plasma_sum_vector_running_sum (li : List ℚ → List ℚ → ℚ)
    (plasma_data : List PlasmaSample) (tfd : TimeFrameDefinitions) (f : Nat)
    (h1 : 1 ≤ f) (h2 : f ≤ tfd.get_num_frames) :
    (integrate_frames li plasma_data tfd).plasma_sum_vector.getD (f - 1) 0 =
      (if f = 1 then 0
        else (integrate_frames li plasma_data tfd).plasma_sum_vector.getD (f - 1 - 1) 0) +
        raw_plasma_integral li plasma_data tfd f ∧
    (integrate_frames li plasma_data tfd).plasma_sum_vector.getD (tfd.get_num_frames - 1) 0 =
      ((List.range' 1 tfd.get_num_frames).map (raw_plasma_integral li plasma_data tfd)).sum ∧
    (integrate_frames li plasma_data tfd).plasma_vector.getD (f - 1) 0 =
      raw_plasma_integral li plasma_data tfd f / tfd.get_duration f ∧
    (integrate_frames li plasma_data tfd).blood_vector.getD (f - 1) 0 =
      raw_blood_integral li plasma_data tfd f / tfd.get_duration f := by
  obtain ⟨_, _, _, _, hall⟩ :=
    integrate_frames_upto_inv li plasma_data tfd tfd.get_num_frames tfd.get_num_frames
      (le_refl _)
  obtain ⟨a, b, c⟩ := hall f h1 h2
  have hlast := (hall tfd.get_num_frames (by omega) (le_refl _)).1
  refine ⟨?_, hlast, b, c⟩
  simp only [integrate_frames]
  rw [a]
  obtain ⟨g, rfl⟩ : ∃ g, f = g + 1 := ⟨f - 1, by omega⟩
  rw [raw_plasma_sum_succ]
  by_cases hg : g = 0
  · subst hg
    simp [raw_plasma_sum]
  · have hg1 : g + 1 ≠ 1 := by omega
    rw [if_neg hg1, Nat.add_sub_cancel, (hall g (by omega) (by omega)).1]

/-- Witness of C5 on the fourteen-frame image with the steady series, at the last frame
`f = 14`: the cumulative total 1120 is the cumulative total 1040 of frame 13 plus the raw
integral 80 of frame 14, it is the sum of the raw integrals of the fourteen frames, and the
stored totals are the raw integrals divided by the duration of 10 s. -/
theorem plasma_sum_vector_running_sum_witness :
    1 ≤ 14 ∧ 14 ≤ ten_second_frames.get_num_frames ∧
    ((integrate_frames linear_integral steady_plasma ten_second_frames).plasma_sum_vector.getD
        (14 - 1) 0 =
      (if 14 = 1 then 0
        else (integrate_frames linear_integral steady_plasma
          ten_second_frames).plasma_sum_vector.getD (14 - 1 - 1) 0) +
        raw_plasma_integral linear_integral steady_plasma ten_second_frames 14 ∧
    (integrate_frames linear_integral steady_plasma ten_second_frames).plasma_sum_vector.getD
        (ten_second_frames.get_num_frames - 1) 0 =
      ((List.range' 1 ten_second_frames.get_num_frames).map
        (raw_plasma_integral linear_integral steady_plasma ten_second_frames)).sum ∧
    (integrate_frames linear_integral steady_plasma ten_second_frames).plasma_vector.getD
        (14 - 1) 0 =
      raw_plasma_integral linear_integral steady_plasma ten_second_frames 14 /
        ten_second_frames.get_duration 14 ∧
    (integrate_frames linear_integral steady_plasma ten_second_frames).blood_vector.getD
        (14 - 1) 0 =
      raw_blood_integral linear_integral steady_plasma ten_second_frames 14 /
        ten_second_frames.get_duration 14) ∧
    (integrate_frames linear_integral steady_plasma ten_second_frames).plasma_sum_vector.getD
      (14 - 1 - 1) 0 = 1040 ∧
    raw_plasma_integral linear_integral steady_plasma ten_second_frames 14 = 80 ∧
    (integrate_frames linear_integral steady_plasma ten_second_frames).plasma_sum_vector.getD
      (14 - 1) 0 = 1120 :=
  ⟨by decide, by decide,
   plasma_sum_vector_running_sum linear_integral steady_plasma ten_second_frames 14
     (by decide) (by decide),
   by rw [steady_cumulative 13 (by decide) (by decide)]; norm_num,
   (steady_raw_plasma 14 (by decide) (le_refl _)).2,
   by rw [steady_cumulative 14 (by decide) (le_refl _)]; norm_num⟩

/-- The trapezoidal integral of non-negative values over non-decreasing times is
non-negative. -/
theorem linear_integral_nonneg (fl tl : List ℚ) (hf : ∀ x ∈ fl, 0 ≤ x)
    (ht : tl.Pairwise (· ≤ ·)) : 0 ≤ linear_integral fl tl := by
  induction fl generalizing tl with
  | nil => simp [linear_integral]
  | cons f0 rest ih =>
    cases rest with
    | nil => simp [linear_integral]
    | cons f1 fs =>
      cases tl with
      | nil => simp [linear_integral]
      | cons t0 tl1 =>
        cases tl1 with
        | nil => simp [linear_integral]
        | cons t1 ts =>
          have hp := List.pairwise_cons.mp ht
          have h01 : t0 ≤ t1 := hp.1 t1 (by simp)
          have hf0 : 0 ≤ f0 := hf f0 (by simp)
          have hf1 : 0 ≤ f1 := hf f1 (by simp)
          have hrest : 0 ≤ linear_integral (f1 :: fs) (t1 :: ts) :=
            ih (t1 :: ts) (fun x hx => hf x (List.mem_cons_of_mem _ hx)) hp.2
          have hterm : 0 ≤ (f0 + f1) / 2 * (t1 - t0) :=
            mul_nonneg (by linarith) (by linarith)
          simp only [linear_integral]
          linarith

/-- With the trapezoidal `linear_integral`, non-negative plasma counts and a series ordered by
time, the raw plasma integral of every frame is non-negative. -/
theorem raw_plasma_integral_nonneg (plasma_data : List PlasmaSample)
    (tfd : TimeFrameDefinitions) (frame_num : Nat)
    (hpos : ∀ s ∈ plasma_data, 0 ≤ s.plasma_counts_in_kBq) (hord : time_ordered plasma_data) :
    0 ≤ raw_plasma_integral linear_integral plasma_data tfd frame_num := by
  have hspec := plasma_scan_spec (tfd.get_start_time frame_num) (tfd.get_end_time frame_num)
    plasma_data scan_begin
  have hsub : ((scanned_run (tfd.get_end_time frame_num) plasma_data).filter
      fun s => decide (tfd.get_start_time frame_num ≤ s.time_in_s)).Sublist plasma_data :=
    (List.filter_sublist _).trans (List.takeWhile_sublist _)
  have ht : (frame_scan plasma_data tfd frame_num).time_frame_vector =
      ((scanned_run (tfd.get_end_time frame_num) plasma_data).filter
        fun s => decide (tfd.get_start_time frame_num ≤ s.time_in_s)).map (·.time_in_s) := by
    simpa [frame_scan, frame_scan_from, scan_begin] using hspec.1
  have hpl : (frame_scan plasma_data tfd frame_num).plasma_frame_vector =
      ((scanned_run (tfd.get_end_time frame_num) plasma_data).filter
        fun s => decide (tfd.get_start_time frame_num ≤ s.time_in_s)).map
          (·.plasma_counts_in_kBq) := by
    simpa [frame_scan, frame_scan_from, scan_begin] using hspec.2.1
  unfold raw_plasma_integral
  rw [ht, hpl]
  apply linear_integral_nonneg
  · intro x hx
    obtain ⟨s, hs, rfl⟩ := List.mem_map.mp hx
    exact hpos s (hsub.subset hs)
  · rw [List.pairwise_map]
    exact List.Pairwise.sublist hsub hord

/-- C6, counterexample. Fourteen frames of ten seconds and a time-ordered series with two
samples in every frame, of plasma counts 80 in the frames 1 to 13 and -1 in frame 14: the raw
integral of frame 14 is -1, so the cumulative total falls from 1040 at frame 13 to 1039 at
frame 14. -/
theorem cumulative_totals_can_decrease :
    time_ordered dipping_plasma ∧
    (∀ f, 1 ≤ f → f ≤ 14 → (frame_window dipping_plasma ten_second_frames f).length = 2) ∧
    raw_plasma_integral linear_integral dipping_plasma ten_second_frames 14 = -1 ∧
    (integrate_frames linear_integral dipping_plasma ten_second_frames).plasma_sum_vector.getD
      (13 - 1) 0 = 1040 ∧
    (integrate_frames linear_integral dipping_plasma ten_second_frames).plasma_sum_vector.getD
      (14 - 1) 0 = 1039 ∧
    ¬ ((integrate_frames linear_integral dipping_plasma ten_second_frames).plasma_sum_vector.getD
          (13 - 1) 0 ≤
        (integrate_frames linear_integral dipping_plasma ten_second_frames).plasma_sum_vector.getD
          (14 - 1) 0) := by
  refine ⟨by decide, fun f h1 h2 => (dipping_raw_plasma f h1 h2).1,
    (dipping_raw_plasma 14 (by decide) (le_refl _)).2, dipping_cumulative.1,
    dipping_cumulative.2, ?_⟩
  rw [dipping_cumulative.1, dipping_cumulative.2]
  norm_num

/-- C6, amended. For every `linear_integral` that is the trapezoidal integral whenever it is
given two samples or more (what it returns on fewer samples is left open), every plasma series
ordered by non-decreasing time whose plasma counts are all non-negative and every list of
frames: the cumulative plasma total does not decrease from frame `f` to frame `f + 1` whenever
the window of frame `f + 1` holds at least two samples of the series. -/
theorem cumulative_totals_monotone (li : List ℚ → List ℚ → ℚ)
    (plasma_data : List PlasmaSample) (tfd : TimeFrameDefinitions)
    (hli : ∀ fl tl : List ℚ, 2 ≤ fl.length → fl.length = tl.length →
      li fl tl = linear_integral fl tl)
    (hpos : ∀ s ∈ plasma_data, 0 ≤ s.plasma_counts_in_kBq)
    (hord : time_ordered plasma_data) (f : Nat) (h1 : 1 ≤ f) (h2 : f + 1 ≤ tfd.get_num_frames)
    (hwin : 2 ≤ (frame_window plasma_data tfd (f + 1)).length) :
    (integrate_frames li plasma_data tfd).plasma_sum_vector.getD (f - 1) 0 ≤
      (integrate_frames li plasma_data tfd).plasma_sum_vector.getD (f + 1 - 1) 0 := by
  obtain ⟨_, _, _, _, hall⟩ :=
    integrate_frames_upto_inv li plasma_data tfd tfd.get_num_frames
      tfd.get_num_frames (le_refl _)
  have ha := (hall f h1 (by omega)).1
  have hb := (hall (f + 1) (by omega) h2).1
  simp only [integrate_frames]
  rw [ha, hb, raw_plasma_sum_succ,
    raw_plasma_integral_of_two li plasma_data tfd (f + 1) hli hord hwin]
  have := raw_plasma_integral_nonneg plasma_data tfd (f + 1) hpos hord
  linarith

/-- Witness of C6, amended, on the fourteen-frame image with the steady series (plasma counts
80, two samples in every frame), from frame 13 to frame 14: the cumulative total goes from 1040
to 1120. -/
theorem cumulative_totals_monotone_witness :
    (∀ fl tl : List ℚ, 2 ≤ fl.length → fl.length = tl.length →
      linear_integral fl tl = linear_integral fl tl) ∧
    (∀ s ∈ steady_plasma, 0 ≤ s.plasma_counts_in_kBq) ∧
    time_ordered steady_plasma ∧ 1 ≤ 13 ∧ 13 + 1 ≤ ten_second_frames.get_num_frames ∧
    2 ≤ (frame_window steady_plasma ten_second_frames (13 + 1)).length ∧
    (integrate_frames linear_integral steady_plasma ten_second_frames).plasma_sum_vector.getD
        (13 - 1) 0 ≤
      (integrate_frames linear_integral steady_plasma ten_second_frames).plasma_sum_vector.getD
        (13 + 1 - 1) 0 ∧
    (integrate_frames linear_integral steady_plasma ten_second_frames).plasma_sum_vector.getD
      (13 - 1) 0 = 1040 ∧
    (integrate_frames linear_integral steady_plasma ten_second_frames).plasma_sum_vector.getD
      (13 + 1 - 1) 0 = 1120 :=
  ⟨fun _ _ _ _ => rfl, steady_plasma_nonneg, steady_plasma_ordered, by decide, by decide,
   by decide,
   cumulative_totals_monotone linear_integral steady_plasma ten_second_frames
     (fun _ _ _ _ => rfl) steady_plasma_nonneg steady_plasma_ordered 13 (by decide)
     (by decide) (by decide),
   by rw [steady_cumulative 13 (by decide) (by decide)]; norm_num,
   by rw [steady_cumulative 14 (by decide) (le_refl _)]; norm_num⟩

/-- What the frame loop computes on the scenario series with its single frame `[0, 120)`. -/
theorem scenario_frame_totals :
    (frame_scan scenario_plasma scenario_frames 1).time_frame_vector = [0, 60] ∧
    (frame_scan scenario_plasma scenario_frames 1).plasma_frame_vector = [10, 8] ∧
    raw_plasma_integral linear_integral scenario_plasma scenario_frames 1 = 540 ∧
    (integrate_frames linear_integral scenario_plasma scenario_frames).plasma_sum_vector.getD
      (1 - 1) 0 = 540 ∧
    (integrate_frames linear_integral scenario_plasma scenario_frames).plasma_vector.getD
      (1 - 1) 0 = 9 / 2 := by
  have hraw : raw_plasma_integral linear_integral scenario_plasma scenario_frames 1 = 540 := by
    simp [raw_plasma_integral, frame_scan, frame_scan_from, plasma_scan, scenario_plasma,
      scenario_frames, scan_begin, linear_integral, TimeFrameDefinitions.get_start_time,
      TimeFrameDefinitions.get_end_time]
    norm_num
  have hdur : scenario_frames.get_duration 1 = 120 := by
    simp [scenario_frames, TimeFrameDefinitions.get_duration,
      TimeFrameDefinitions.get_start_time, TimeFrameDefinitions.get_end_time]
  obtain ⟨_, _, _, _, hall⟩ :=
    integrate_frames_upto_inv linear_integral scenario_plasma scenario_frames 1 1 (le_refl _)
  obtain ⟨a, b, _⟩ := hall 1 (le_refl _) (le_refl _)
  have hn : scenario_frames.get_num_frames = 1 := rfl
  refine ⟨?_, ?_, hraw, ?_, ?_⟩
  · norm_num [frame_scan, frame_scan_from, plasma_scan, scenario_plasma, scenario_frames,
      scan_begin, TimeFrameDefinitions.get_start_time, TimeFrameDefinitions.get_end_time]
  · norm_num [frame_scan, frame_scan_from, plasma_scan, scenario_plasma, scenario_frames,
      scan_begin, TimeFrameDefinitions.get_start_time, TimeFrameDefinitions.get_end_time]
  · simp only [integrate_frames, hn]
    rw [a, raw_plasma_sum_succ, hraw]
    simp [raw_plasma_sum]
  · simp only [integrate_frames, hn]
    rw [b, hraw, hdur]
    norm_num

/-- C3, counterexample. On the scenario series with its single frame `[0, 120)` the raw plasma
total of frame 1 is not 960, the cumulative total is not 960 and the total after the division by
the duration is not 8: the sample at 120 s is outside the frame window. -/
theorem scenario_totals_are_not_960 :
    raw_plasma_integral linear_integral scenario_plasma scenario_frames 1 ≠ 960 ∧
    (integrate_frames linear_integral scenario_plasma scenario_frames).plasma_sum_vector.getD
      (1 - 1) 0 ≠ 960 ∧
    (integrate_frames linear_integral scenario_plasma scenario_frames).plasma_vector.getD
      (1 - 1) 0 ≠ 8 := by
  rw [scenario_frame_totals.2.2.1, scenario_frame_totals.2.2.2.1,
    scenario_frame_totals.2.2.2.2]
  norm_num

/-- C3, amended. On the scenario series with its single frame `[0, 120)` of duration 120 and
the trapezoidal `linear_integral`, the scan collects the samples at 0 s and 60 s only, the raw
plasma total of frame 1 is `(10 + 8) / 2 * 60 = 540`, the cumulative plasma total is 540 and the
plasma total after the division by the duration is 4.5. -/
theorem scenario_totals_are_540 :
    scenario_frames.get_duration 1 = 120 ∧
    (frame_scan scenario_plasma scenario_frames 1).time_frame_vector = [0, 60] ∧
    (frame_scan scenario_plasma scenario_frames 1).plasma_frame_vector = [10, 8] ∧
    raw_plasma_integral linear_integral scenario_plasma scenario_frames 1 = 540 ∧
    (integrate_frames linear_integral scenario_plasma scenario_frames).plasma_sum_vector.getD
      (1 - 1) 0 = 540 ∧
    (integrate_frames linear_integral scenario_plasma scenario_frames).plasma_vector.getD
      (1 - 1) 0 = 45 / 10 := by
  refine ⟨?_, scenario_frame_totals.1, scenario_frame_totals.2.1, scenario_frame_totals.2.2.1,
    scenario_frame_totals.2.2.2.1, ?_⟩
  · simp [scenario_frames, TimeFrameDefinitions.get_duration,
      TimeFrameDefinitions.get_start_time, TimeFrameDefinitions.get_end_time]
  · rw [scenario_frame_totals.2.2.2.2]
    norm_num

/-! ## `main`: the guards and the exit status -/

/-- The two writes never end in `error`. -/
theorem write_images_not_fatal
    (write_basic_interfile : String → (Int → Int → Int → ℚ) → Succeeded)
    (y_intersection_string slope_string : String)
    (y_intersection_image slope_image : Int → Int → Int → ℚ) (message : String) :
    (write_images write_basic_interfile y_intersection_string slope_string
      y_intersection_image slope_image).2 ≠ ExitStatus.fatal_error message := by
  simp only [write_images]
  split <;> simp

/-- The exit status the two writes give: success exactly when both succeeded. -/
theorem write_images_success_iff
    (write_basic_interfile : String → (Int → Int → Int → ℚ) → Succeeded)
    (y_intersection_string slope_string : String)
    (y_intersection_image slope_image : Int → Int → Int → ℚ) :
    (write_images write_basic_interfile y_intersection_string slope_string
      y_intersection_image slope_image).2 = ExitStatus.EXIT_SUCCESS ↔
      (write_basic_interfile y_intersection_string y_intersection_image = Succeeded.yes ∧
        write_basic_interfile slope_string slope_image = Succeeded.yes) := by
  simp only [write_images]
  split
  · rename_i h
    simp [h.1, h.2]
  · rename_i h
    simp only [false_iff, reduceCtorEq]
    intro h2
    exact h ⟨h2.2, h2.1⟩

/-- C1. Frame-count guard of `main`: once the argument count is accepted, a dynamic image
with at most 13 frames ends the run in the fatal error of line 88 right after the image was
read, with no frame total integrated, no voxel regressed and nothing written; with 14 frames or
more the run does not end in that error and goes on to read the plasma data. -/
theorem frame_count_guard (ext : Externals) (inp : Inputs)
    (h3 : 3 ≤ inp.argc) (h8 : inp.argc ≤ 8) :
    (inp.time_frame_definitions.get_num_frames ≤ 13 →
      (main ext inp).exit_status = ExitStatus.fatal_error frame_guard_message ∧
      (main ext inp).events = [Event.dynamic_image_read] ∧
      (main ext inp).frame_totals = none ∧
      (main ext inp).voxel_state.isNone = true ∧
      (main ext inp).tac = none) ∧
    (14 ≤ inp.time_frame_definitions.get_num_frames →
      (main ext inp).exit_status ≠ ExitStatus.fatal_error frame_guard_message ∧
      Event.plasma_data_read ∈ (main ext inp).events) := by
  have hargc : ¬ (inp.argc < 3 ∨ inp.argc > 8) := by omega
  constructor
  · intro h
    simp [main, error, hargc, h]
  · intro h
    have hn : ¬ inp.time_frame_definitions.get_num_frames ≤ 13 := by omega
    have hmsg : calibration_message ≠ frame_guard_message := by decide
    cases hc : (if inp.argc ≥ 8 then decide (inp.argv7 ≠ 0) else true) with
    | false =>
      simp only [main, error, hargc, hn, if_false, hc]
      simp [hmsg]
    | true =>
      simp only [main, hargc, hn, if_false, hc, Bool.not_true, Bool.false_eq_true]
      exact ⟨write_images_not_fatal _ _ _ _ _ _, by simp⟩

/-- Witness of C1: the one-frame scenario image is rejected by the guard. -/
theorem frame_count_guard_witness :
    3 ≤ (sample_inputs scenario_frames scenario_plasma).argc ∧ (sample_inputs scenario_frames scenario_plasma).argc ≤ 8 ∧
    (sample_inputs scenario_frames scenario_plasma).time_frame_definitions.get_num_frames ≤ 13 ∧
    (main (sample_externals Succeeded.yes Succeeded.yes) (sample_inputs scenario_frames scenario_plasma)).events
      = [Event.dynamic_image_read] :=
  ⟨by decide, by decide, by decide,
   ((frame_count_guard (sample_externals Succeeded.yes Succeeded.yes)
      (sample_inputs scenario_frames scenario_plasma) (by decide) (by decide)).1 (by decide)).2.1⟩

/-- C2. Exit status of `main` after the voxel loop: when the run gets past the guards, the
write of the `y_intersection` image and the write of the `slope` image are both attempted, in
this order and whatever the first one returned, and the exit status is success exactly when
both writes succeeded; a failed `slope` write with a successful `y_intersection` write gives
failure. -/
theorem exit_status_reflects_both_writes (ext : Externals) (inp : Inputs)
    (h3 : 3 ≤ inp.argc) (h8 : inp.argc ≤ 8)
    (h14 : 14 ≤ inp.time_frame_definitions.get_num_frames)
    (hcal : inp.argc < 8 ∨ inp.argv7 ≠ 0) :
    ∃ vs : VoxelLoopState, (main ext inp).voxel_state = some vs ∧
      (main ext inp).events =
        [Event.dynamic_image_read, Event.plasma_data_read, Event.frames_integrated,
          Event.voxels_regressed, Event.tac_written,
          Event.image_write_attempted ("y_intersection_" ++ inp.input_string)
            (ext.write_basic_interfile ("y_intersection_" ++ inp.input_string)
              vs.y_intersection_image),
          Event.image_write_attempted ("slope_" ++ inp.input_string)
            (ext.write_basic_interfile ("slope_" ++ inp.input_string) vs.slope_image)] ∧
      ((main ext inp).exit_status = ExitStatus.EXIT_SUCCESS ↔
        (ext.write_basic_interfile ("y_intersection_" ++ inp.input_string)
            vs.y_intersection_image = Succeeded.yes ∧
          ext.write_basic_interfile ("slope_" ++ inp.input_string) vs.slope_image
            = Succeeded.yes)) ∧
      (ext.write_basic_interfile ("slope_" ++ inp.input_string) vs.slope_image = Succeeded.no →
        ext.write_basic_interfile ("y_intersection_" ++ inp.input_string)
            vs.y_intersection_image = Succeeded.yes →
        (main ext inp).exit_status = ExitStatus.EXIT_FAILURE) := by
  have hargc : ¬ (inp.argc < 3 ∨ inp.argc > 8) := by omega
  have hn : ¬ inp.time_frame_definitions.get_num_frames ≤ 13 := by omega
  have hc : (if inp.argc ≥ 8 then decide (inp.argv7 ≠ 0) else true) = true := by
    split
    · rcases hcal with h | h
      · omega
      · simpa using h
    · rfl
  simp only [main, hargc, hn, if_false, hc, Bool.not_true, Bool.false_eq_true]
  refine ⟨_, rfl, ?_, ?_, ?_⟩
  · simp [write_images]
  · exact write_images_success_iff _ _ _ _ _
  · intro hs _
    simp only [write_images]
    rw [if_neg]
    intro h
    rw [hs] at h
    exact absurd h.1 (by simp)

/-- Witness of C2: a fourteen-frame run in which the `slope` write fails and the
`y_intersection` write succeeds exits with failure. -/
theorem exit_status_reflects_both_writes_witness :
    3 ≤ (sample_inputs ten_second_frames steady_plasma).argc ∧ (sample_inputs ten_second_frames steady_plasma).argc ≤ 8 ∧
    14 ≤ (sample_inputs ten_second_frames steady_plasma).time_frame_definitions.get_num_frames ∧
    ((sample_inputs ten_second_frames steady_plasma).argc < 8 ∨ (sample_inputs ten_second_frames steady_plasma).argv7 ≠ 0) ∧
    (main (sample_externals Succeeded.yes Succeeded.no)
      (sample_inputs ten_second_frames steady_plasma)).exit_status =
        ExitStatus.EXIT_FAILURE := by
  obtain ⟨vs, _, _, _, h⟩ :=
    exit_status_reflects_both_writes (sample_externals Succeeded.yes Succeeded.no)
      (sample_inputs ten_second_frames steady_plasma) (by decide) (by decide) (by decide)
      (Or.inl (by decide))
  exact ⟨by decide, by decide, by decide, Or.inl (by decide),
    h (by simp [sample_externals, sample_inputs]) (by simp [sample_externals, sample_inputs])⟩

/-! ## The per-voxel frame loop -/

theorem VectorWithOffset.get_set_eq (v : VectorWithOffset) (n : Int) (x : ℚ)
    (h : (n - v.min_index).toNat < v.elems.length) : (v.set n x).get n = x := by
  simp only [VectorWithOffset.get, VectorWithOffset.set]
  exact getD_set_eq _ _ _ h

theorem VectorWithOffset.get_set_ne (v : VectorWithOffset) (n m : Int) (x : ℚ)
    (h : (n - v.min_index).toNat ≠ (m - v.min_index).toNat) :
    (v.set n x).get m = v.get m := by
  simp only [VectorWithOffset.get, VectorWithOffset.set]
  exact getD_set_ne _ _ _ _ h

theorem observation_shape_create (starting_frame num_frames : Nat) (h1 : 1 ≤ starting_frame) :
    observation_shape starting_frame num_frames
      (VectorWithOffset.create ((starting_frame - 1 : Nat) : Int) ((num_frames : Int) - 1)) := by
  refine ⟨rfl, rfl, ?_⟩
  simp only [VectorWithOffset.get_length, VectorWithOffset.create, List.length_replicate]
  omega

theorem observation_shape_set (starting_frame num_frames : Nat) (v : VectorWithOffset)
    (n : Int) (x : ℚ) (h : observation_shape starting_frame num_frames v) :
    observation_shape starting_frame num_frames (v.set n x) := by
  obtain ⟨a, b, c⟩ := h
  refine ⟨a, b, ?_⟩
  simpa [VectorWithOffset.get_length, VectorWithOffset.set] using c

/-- The observation arrays after one iteration of the per-voxel frame loop. -/
theorem voxel_frame_body_fst (fs : FrameState) (bv : ℚ)
    (dyn_image : Nat → Int → Int → Int → ℚ) (g : Grid) (k j i : Int)
    (st : PatlakVectors × RoIState) (frame_num : Nat) :
    (voxel_frame_body fs bv dyn_image g k j i st frame_num).1 =
      { patlak_y := st.1.patlak_y.set ((frame_num - 1 : Nat) : Int)
          (patlak_y_value fs bv dyn_image k j i frame_num)
        patlak_x := st.1.patlak_x.set ((frame_num - 1 : Nat) : Int)
          (patlak_x_value fs frame_num)
        weights := st.1.weights.set ((frame_num - 1 : Nat) : Int) 1 } := by
  simp only [voxel_frame_body, patlak_y_value, patlak_x_value]
  split <;> rfl

/-- The invariant of the per-voxel frame loop after its first `c` iterations
(`frame_num = starting_frame, ..., starting_frame + c - 1`). -/
theorem voxel_frames_upto_inv (fs : FrameState) (bv : ℚ)
    (dyn_image : Nat → Int → Int → Int → ℚ) (g : Grid) (starting_frame num_frames : Nat)
    (k j i : Int) (roi : RoIState) (c : Nat) (h1 : 1 ≤ starting_frame)
    (hc : starting_frame + c ≤ num_frames + 1) :
    observation_shape starting_frame num_frames
      ((List.range' starting_frame c).foldl (voxel_frame_body fs bv dyn_image g k j i)
        (patlak_vectors_init starting_frame num_frames, roi)).1.patlak_y ∧
    observation_shape starting_frame num_frames
      ((List.range' starting_frame c).foldl (voxel_frame_body fs bv dyn_image g k j i)
        (patlak_vectors_init starting_frame num_frames, roi)).1.patlak_x ∧
    observation_shape starting_frame num_frames
      ((List.range' starting_frame c).foldl (voxel_frame_body fs bv dyn_image g k j i)
        (patlak_vectors_init starting_frame num_frames, roi)).1.weights ∧
    ∀ f, starting_frame ≤ f → f < starting_frame + c →
      ((List.range' starting_frame c).foldl (voxel_frame_body fs bv dyn_image g k j i)
        (patlak_vectors_init starting_frame num_frames, roi)).1.patlak_y.get
          ((f - 1 : Nat) : Int) = patlak_y_value fs bv dyn_image k j i f ∧
      ((List.range' starting_frame c).foldl (voxel_frame_body fs bv dyn_image g k j i)
        (patlak_vectors_init starting_frame num_frames, roi)).1.patlak_x.get
          ((f - 1 : Nat) : Int) = patlak_x_value fs f ∧
      ((List.range' starting_frame c).foldl (voxel_frame_body fs bv dyn_image g k j i)
        (patlak_vectors_init starting_frame num_frames, roi)).1.weights.get
          ((f - 1 : Nat) : Int) = 1 := by
  induction c with
  | zero =>
    refine ⟨?_, ?_, ?_, ?_⟩
    · exact observation_shape_create _ _ h1
    · exact observation_shape_create _ _ h1
    · exact observation_shape_create _ _ h1
    · intro f h2 h3; omega
  | succ c ih =>
    obtain ⟨sy, sx, sw, hall⟩ := ih (by omega)
    rw [List.range'_1_concat, List.foldl_append, List.foldl_cons, List.foldl_nil,
      voxel_frame_body_fst]
    refine ⟨observation_shape_set _ _ _ _ _ sy, observation_shape_set _ _ _ _ _ sx,
      observation_shape_set _ _ _ _ _ sw, ?_⟩
    intro f h2 h3
    by_cases hf : f = starting_frame + c
    · subst hf
      refine ⟨?_, ?_, ?_⟩
      · apply VectorWithOffset.get_set_eq
        have h4 := sy.2.2
        simp only [VectorWithOffset.get_length] at h4
        rw [sy.1, h4]; omega
      · apply VectorWithOffset.get_set_eq
        have h4 := sx.2.2
        simp only [VectorWithOffset.get_length] at h4
        rw [sx.1, h4]; omega
      · apply VectorWithOffset.get_set_eq
        have h4 := sw.2.2
        simp only [VectorWithOffset.get_length] at h4
        rw [sw.1, h4]; omega
    · obtain ⟨a, b, d⟩ := hall f h2 (by omega)
      refine ⟨?_, ?_, ?_⟩
      · rw [VectorWithOffset.get_set_ne _ _ _ _ (by rw [sy.1]; omega)]; exact a
      · rw [VectorWithOffset.get_set_ne _ _ _ _ (by rw [sx.1]; omega)]; exact b
      · rw [VectorWithOffset.get_set_ne _ _ _ _ (by rw [sw.1]; omega)]; exact d

/-- The raw integrals and totals of frame 14 on the steady series: 80 and 40 raw, 8 and 4
after the division by the duration of 10 s. -/
theorem steady_frame_14 :
    (integrate_frames linear_integral steady_plasma ten_second_frames).plasma_vector.getD
      (14 - 1) 0 = 8 ∧
    (integrate_frames linear_integral steady_plasma ten_second_frames).blood_vector.getD
      (14 - 1) 0 = 4 := by
  have hp : raw_plasma_integral linear_integral steady_plasma ten_second_frames 14 = 80 := by
    norm_num [raw_plasma_integral, frame_scan, frame_scan_from, plasma_scan, steady_plasma,
      ten_second_frames, scan_begin, linear_integral, TimeFrameDefinitions.get_start_time,
      TimeFrameDefinitions.get_end_time]
  have hb : raw_blood_integral linear_integral steady_plasma ten_second_frames 14 = 40 := by
    norm_num [raw_blood_integral, frame_scan, frame_scan_from, plasma_scan, steady_plasma,
      ten_second_frames, scan_begin, linear_integral, TimeFrameDefinitions.get_start_time,
      TimeFrameDefinitions.get_end_time]
  have hd : ten_second_frames.get_duration 14 = 10 := by
    norm_num [ten_second_frames, TimeFrameDefinitions.get_duration,
      TimeFrameDefinitions.get_start_time, TimeFrameDefinitions.get_end_time]
  obtain ⟨_, _, _, _, hall⟩ :=
    integrate_frames_upto_inv linear_integral steady_plasma ten_second_frames 14 14 (le_refl _)
  obtain ⟨_, b, c⟩ := hall 14 (by decide) (le_refl _)
  have hn : ten_second_frames.get_num_frames = 14 := rfl
  simp only [integrate_frames, hn]
  rw [b, c, hp, hb, hd]
  norm_num

/-- C7. Patlak observation built per voxel: with the frame totals of the frame loop, for
every voxel `(k, j, i)` and every frame `f` in `starting_frame..num_frames` whose plasma total
is nonzero, the arrays handed to the regression hold at slot `f - 1` the abscissa
`plasma_sum_vector[f-1] / plasma_vector[f-1]`, the ordinate
`(dyn_image[f][k][j][i] - bv * blood_vector[f-1]) / plasma_vector[f-1]` and the weight 1, where
`plasma_vector[f-1]` and `blood_vector[f-1]` are the raw integrals divided by the duration; for
`bv = 0.05`, plasma total 8, blood total 4 and tissue activity 100 the ordinate is 12.475. -/
theorem patlak_observation (li : List ℚ → List ℚ → ℚ) (plasma_data : List PlasmaSample)
    (tfd : TimeFrameDefinitions) (bv : ℚ) (dyn_image : Nat → Int → Int → Int → ℚ) (g : Grid)
    (starting_frame : Nat) (k j i : Int) (roi : RoIState) (f : Nat)
    (h1 : 1 ≤ starting_frame) (h2 : starting_frame ≤ f) (h3 : f ≤ tfd.get_num_frames)
    (_hnz : (integrate_frames li plasma_data tfd).plasma_vector.getD (f - 1) 0 ≠ 0) :
    (voxel_frames (integrate_frames li plasma_data tfd) bv dyn_image g starting_frame
        tfd.get_num_frames k j i roi).1.patlak_x.get ((f - 1 : Nat) : Int) =
      (integrate_frames li plasma_data tfd).plasma_sum_vector.getD (f - 1) 0 /
        (integrate_frames li plasma_data tfd).plasma_vector.getD (f - 1) 0 ∧
    (voxel_frames (integrate_frames li plasma_data tfd) bv dyn_image g starting_frame
        tfd.get_num_frames k j i roi).1.patlak_y.get ((f - 1 : Nat) : Int) =
      (dyn_image f k j i - bv * (integrate_frames li plasma_data tfd).blood_vector.getD (f - 1) 0)
        / (integrate_frames li plasma_data tfd).plasma_vector.getD (f - 1) 0 ∧
    (voxel_frames (integrate_frames li plasma_data tfd) bv dyn_image g starting_frame
        tfd.get_num_frames k j i roi).1.weights.get ((f - 1 : Nat) : Int) = 1 ∧
    (integrate_frames li plasma_data tfd).plasma_vector.getD (f - 1) 0 =
      raw_plasma_integral li plasma_data tfd f / tfd.get_duration f ∧
    (integrate_frames li plasma_data tfd).blood_vector.getD (f - 1) 0 =
      raw_blood_integral li plasma_data tfd f / tfd.get_duration f ∧
    (bv = 5 / 100 →
      (integrate_frames li plasma_data tfd).plasma_vector.getD (f - 1) 0 = 8 →
      (integrate_frames li plasma_data tfd).blood_vector.getD (f - 1) 0 = 4 →
      dyn_image f k j i = 100 →
      (voxel_frames (integrate_frames li plasma_data tfd) bv dyn_image g starting_frame
        tfd.get_num_frames k j i roi).1.patlak_y.get ((f - 1 : Nat) : Int) = 12475 / 1000) := by
  obtain ⟨_, _, _, hall⟩ :=
    voxel_frames_upto_inv (integrate_frames li plasma_data tfd) bv dyn_image g starting_frame
      tfd.get_num_frames k j i roi (tfd.get_num_frames + 1 - starting_frame) h1 (by omega)
  obtain ⟨hy, hx, hw⟩ := hall f h2 (by omega)
  obtain ⟨_, _, _, _, hfr⟩ :=
    integrate_frames_upto_inv li plasma_data tfd tfd.get_num_frames tfd.get_num_frames
      (le_refl _)
  obtain ⟨_, hpv, hbv⟩ := hfr f (by omega) h3
  refine ⟨hx, hy, hw, hpv, hbv, ?_⟩
  intro hb hp hbl ht
  have hy2 := hy
  simp only [voxel_frames, frame_range]
  rw [hy2]
  simp only [patlak_y_value]
  rw [hb, hp, hbl, ht]
  norm_num

/-- Witness of C7: the one-voxel image of activity 100 with the steady plasma series, frame
14 of a regression that starts at frame 2, with `bv = 0.05`. -/
theorem patlak_observation_witness :
    1 ≤ 2 ∧ 2 ≤ 14 ∧ 14 ≤ ten_second_frames.get_num_frames ∧
    (integrate_frames linear_integral steady_plasma ten_second_frames).plasma_vector.getD
      (14 - 1) 0 ≠ 0 ∧
    (voxel_frames (integrate_frames linear_integral steady_plasma ten_second_frames) (5 / 100)
        (fun _ _ _ _ => 100) single_voxel_grid 2 ten_second_frames.get_num_frames 0 0 0
        (roi_init 14)).1.patlak_y.get ((14 - 1 : Nat) : Int) = 12475 / 1000 :=
  ⟨by decide, by decide, by decide, by rw [steady_frame_14.1]; norm_num,
   (patlak_observation linear_integral steady_plasma ten_second_frames (5 / 100)
      (fun _ _ _ _ => 100) single_voxel_grid 2 0 0 0 (roi_init 14) 14 (by decide) (by decide)
      (by decide) (by rw [steady_frame_14.1]; norm_num)).2.2.2.2.2 rfl steady_frame_14.1
      steady_frame_14.2 rfl⟩

/-- C8. Default starting frame: without a starting-frame argument (`argc < 6`) and with the
frame-count guard passed (`num_frames ≥ 14`, an `unsigned int`), `num_frames-13+1` does not
wrap and `starting_frame` is `num_frames - 12`; the per-voxel frame loop then runs over the 13
frames `num_frames-12..num_frames` and the three arrays handed to the regression have exactly
the 13 slots `num_frames-13..num_frames-1`, which hold the observations of these frames. -/
theorem default_starting_frame (argc : Nat) (argv5 : Int) (num_frames : Nat)
    (fs : FrameState) (bv : ℚ) (dyn_image : Nat → Int → Int → Int → ℚ) (g : Grid)
    (k j i : Int) (roi : RoIState)
    (hargc : argc < 6) (h14 : 14 ≤ num_frames) (h32 : num_frames < 2 ^ 32) :
    starting_frame_of argc argv5 num_frames = num_frames - 12 ∧
    ((starting_frame_of argc argv5 num_frames : Nat) : Int) = (num_frames : Int) - 13 + 1 ∧
    frame_range (starting_frame_of argc argv5 num_frames) num_frames =
      List.range' (num_frames - 12) 13 ∧
    (frame_range (starting_frame_of argc argv5 num_frames) num_frames).length = 13 ∧
    (voxel_frames fs bv dyn_image g (starting_frame_of argc argv5 num_frames) num_frames
      k j i roi).1.patlak_y.get_length = 13 ∧
    (voxel_frames fs bv dyn_image g (starting_frame_of argc argv5 num_frames) num_frames
      k j i roi).1.patlak_x.get_length = 13 ∧
    (voxel_frames fs bv dyn_image g (starting_frame_of argc argv5 num_frames) num_frames
      k j i roi).1.weights.get_length = 13 ∧
    (voxel_frames fs bv dyn_image g (starting_frame_of argc argv5 num_frames) num_frames
      k j i roi).1.patlak_y.min_index = (num_frames : Int) - 13 ∧
    (voxel_frames fs bv dyn_image g (starting_frame_of argc argv5 num_frames) num_frames
      k j i roi).1.patlak_y.max_index = (num_frames : Int) - 1 ∧
    ∀ f, num_frames - 12 ≤ f → f ≤ num_frames →
      (voxel_frames fs bv dyn_image g (starting_frame_of argc argv5 num_frames) num_frames
        k j i roi).1.patlak_y.get ((f - 1 : Nat) : Int) =
          patlak_y_value fs bv dyn_image k j i f ∧
      (voxel_frames fs bv dyn_image g (starting_frame_of argc argv5 num_frames) num_frames
        k j i roi).1.patlak_x.get ((f - 1 : Nat) : Int) = patlak_x_value fs f ∧
      (voxel_frames fs bv dyn_image g (starting_frame_of argc argv5 num_frames) num_frames
        k j i roi).1.weights.get ((f - 1 : Nat) : Int) = 1 := by
  have hsf : starting_frame_of argc argv5 num_frames = num_frames - 12 := by
    have hn : ¬ argc ≥ 6 := by omega
    simp only [starting_frame_of, hn, if_false]
    omega
  obtain ⟨sy, sx, sw, hall⟩ :=
    voxel_frames_upto_inv fs bv dyn_image g (num_frames - 12) num_frames k j i roi
      (num_frames + 1 - (num_frames - 12)) (by omega) (by omega)
  rw [hsf]
  refine ⟨rfl, by omega, ?_, ?_, ?_, ?_, ?_, ?_, ?_,
    fun f h1 h2 => hall f h1 (by omega)⟩
  · simp only [frame_range]
    congr 1
    omega
  · simp only [frame_range, List.length_range']
    omega
  · simp only [voxel_frames, frame_range]
    rw [sy.2.2]; omega
  · simp only [voxel_frames, frame_range]
    rw [sx.2.2]; omega
  · simp only [voxel_frames, frame_range]
    rw [sw.2.2]; omega
  · simp only [voxel_frames, frame_range]
    rw [sy.1]; omega
  · simp only [voxel_frames, frame_range]
    rw [sy.2.1]

/-- Witness of C8: fourteen frames and the two file names only give `starting_frame = 2`. -/
theorem default_starting_frame_witness :
    3 < 6 ∧ 14 ≤ 14 ∧ 14 < 2 ^ 32 ∧ starting_frame_of 3 0 14 = 14 - 12 :=
  ⟨by decide, by decide, by decide,
   (default_starting_frame 3 0 14 (frame_state_init 14) (5 / 100) (fun _ _ _ _ => 100)
      single_voxel_grid 0 0 0 (roi_init 14) (by decide) (by decide) (by decide)).1⟩

/-! ## The RoI accumulators -/

/-- Outside the RoI an iteration of the per-voxel frame loop leaves the accumulators alone. -/
theorem voxel_frame_body_snd_out (fs : FrameState) (bv : ℚ)
    (dyn_image : Nat → Int → Int → Int → ℚ) (g : Grid) (k j i : Int)
    (st : PatlakVectors × RoIState) (frame_num : Nat) (hout : in_RoI g k j i = false) :
    (voxel_frame_body fs bv dyn_image g k j i st frame_num).2 = st.2 := by
  simp [voxel_frame_body, hout]

/-- Inside the RoI an iteration of the per-voxel frame loop adds the quantities of the frame
to its slot and counts one more. -/
theorem voxel_frame_body_snd_in (fs : FrameState) (bv : ℚ)
    (dyn_image : Nat → Int → Int → Int → ℚ) (g : Grid) (k j i : Int)
    (st : PatlakVectors × RoIState) (frame_num : Nat) (hin : in_RoI g k j i = true)
    (hy : (((frame_num - 1 : Nat) : Int) - st.1.patlak_y.min_index).toNat
      < st.1.patlak_y.elems.length)
    (hx : (((frame_num - 1 : Nat) : Int) - st.1.patlak_x.min_index).toNat
      < st.1.patlak_x.elems.length) :
    (voxel_frame_body fs bv dyn_image g k j i st frame_num).2 =
      { plasma_vector_RoI := st.2.plasma_vector_RoI.set (frame_num - 1)
          (st.2.plasma_vector_RoI.getD (frame_num - 1) 0
            + fs.plasma_vector.getD (frame_num - 1) 0)
        patlak_y_RoI := st.2.patlak_y_RoI.set (frame_num - 1)
          (st.2.patlak_y_RoI.getD (frame_num - 1) 0
            + patlak_y_value fs bv dyn_image k j i frame_num)
        patlak_x_RoI := st.2.patlak_x_RoI.set (frame_num - 1)
          (st.2.patlak_x_RoI.getD (frame_num - 1) 0 + patlak_x_value fs frame_num)
        tissue_vector_RoI := st.2.tissue_vector_RoI.set (frame_num - 1)
          (st.2.tissue_vector_RoI.getD (frame_num - 1) 0 + dyn_image frame_num k j i)
        total_voxels_RoI := st.2.total_voxels_RoI + 1 } := by
  simp only [voxel_frame_body, hin, if_true]
  rw [VectorWithOffset.get_set_eq _ _ _ hy, VectorWithOffset.get_set_eq _ _ _ hx]
  rfl

/-- The RoI accumulators after the first `c` iterations of the frame loop of a voxel outside
the RoI: unchanged. -/
theorem voxel_frames_upto_roi_out (fs : FrameState) (bv : ℚ)
    (dyn_image : Nat → Int → Int → Int → ℚ) (g : Grid) (starting_frame num_frames : Nat)
    (k j i : Int) (roi : RoIState) (c : Nat) (hout : in_RoI g k j i = false) :
    ((List.range' starting_frame c).foldl (voxel_frame_body fs bv dyn_image g k j i)
      (patlak_vectors_init starting_frame num_frames, roi)).2 = roi := by
  induction c with
  | zero => rfl
  | succ c ih =>
    rw [List.range'_1_concat, List.foldl_append, List.foldl_cons, List.foldl_nil,
      voxel_frame_body_snd_out _ _ _ _ _ _ _ _ _ hout, ih]

/-- The RoI accumulators after the first `c` iterations of the frame loop of a voxel inside
the RoI: the counter went up by `c`, and every slot of a frame done so far received the
quantities of this voxel at that frame. -/
theorem voxel_frames_upto_roi_in (fs : FrameState) (bv : ℚ)
    (dyn_image : Nat → Int → Int → Int → ℚ) (g : Grid) (starting_frame num_frames : Nat)
    (k j i : Int) (roi : RoIState) (c : Nat) (h1 : 1 ≤ starting_frame)
    (hc : starting_frame + c ≤ num_frames + 1) (hsz : roi_sized num_frames roi)
    (hin : in_RoI g k j i = true) :
    roi_sized num_frames
      ((List.range' starting_frame c).foldl (voxel_frame_body fs bv dyn_image g k j i)
        (patlak_vectors_init starting_frame num_frames, roi)).2 ∧
    ((List.range' starting_frame c).foldl (voxel_frame_body fs bv dyn_image g k j i)
      (patlak_vectors_init starting_frame num_frames, roi)).2.total_voxels_RoI =
        roi.total_voxels_RoI + (c : Int) ∧
    ∀ n, roi_slot_plus roi
      ((List.range' starting_frame c).foldl (voxel_frame_body fs bv dyn_image g k j i)
        (patlak_vectors_init starting_frame num_frames, roi)).2 n
      (if starting_frame ≤ n + 1 ∧ n + 1 < starting_frame + c then
        fs.plasma_vector.getD n 0 else 0)
      (if starting_frame ≤ n + 1 ∧ n + 1 < starting_frame + c then
        patlak_y_value fs bv dyn_image k j i (n + 1) else 0)
      (if starting_frame ≤ n + 1 ∧ n + 1 < starting_frame + c then
        patlak_x_value fs (n + 1) else 0)
      (if starting_frame ≤ n + 1 ∧ n + 1 < starting_frame + c then
        dyn_image (n + 1) k j i else 0) := by
  induction c with
  | zero =>
    refine ⟨hsz, by simp, ?_⟩
    intro n
    have hno : ¬ (starting_frame ≤ n + 1 ∧ n + 1 < starting_frame + 0) := by omega
    simp [roi_slot_plus, hno]
  | succ c ih =>
    obtain ⟨hs, ht, hall⟩ := ih (by omega)
    obtain ⟨sy, sx, _, _⟩ :=
      voxel_frames_upto_inv fs bv dyn_image g starting_frame num_frames k j i roi c h1
        (by omega)
    have hy4 := sy.2.2
    have hx4 := sx.2.2
    simp only [VectorWithOffset.get_length] at hy4 hx4
    rw [List.range'_1_concat, List.foldl_append, List.foldl_cons, List.foldl_nil,
      voxel_frame_body_snd_in _ _ _ _ _ _ _ _ _ hin (by rw [sy.1, hy4]; omega)
        (by rw [sx.1, hx4]; omega)]
    obtain ⟨l1, l2, l3, l4⟩ := hs
    refine ⟨⟨by simpa using l1, by simpa using l2, by simpa using l3, by simpa using l4⟩,
      ?_, ?_⟩
    · simp only [ht]; push_cast; ring
    · intro n
      obtain ⟨a, b, d, e⟩ := hall n
      by_cases hn : n = starting_frame + c - 1
      · subst hn
        have hno : ¬ (starting_frame ≤ starting_frame + c - 1 + 1 ∧
            starting_frame + c - 1 + 1 < starting_frame + c) := by omega
        have hyes : starting_frame ≤ starting_frame + c - 1 + 1 ∧
            starting_frame + c - 1 + 1 < starting_frame + (c + 1) := by omega
        have hn1 : starting_frame + c - 1 + 1 = starting_frame + c := by omega
        simp only [hno, if_false, add_zero] at a b d e
        simp only [roi_slot_plus, hyes, and_self, if_true]
        rw [hn1]
        refine ⟨?_, ?_, ?_, ?_⟩
        · rw [getD_set_eq _ _ _ (by omega), a]
        · rw [getD_set_eq _ _ _ (by omega), b]
        · rw [getD_set_eq _ _ _ (by omega), d]
        · rw [getD_set_eq _ _ _ (by omega), e]
      · have hne : starting_frame + c - 1 ≠ n := fun h => hn h.symm
        have hiff : (starting_frame ≤ n + 1 ∧ n + 1 < starting_frame + (c + 1)) ↔
            (starting_frame ≤ n + 1 ∧ n + 1 < starting_frame + c) := by omega
        simp only [roi_slot_plus, hiff]
        exact ⟨by rw [getD_set_ne _ _ _ _ hne]; exact a,
          by rw [getD_set_ne _ _ _ _ hne]; exact b,
          by rw [getD_set_ne _ _ _ _ hne]; exact d,
          by rw [getD_set_ne _ _ _ _ hne]; exact e⟩

theorem foldl_flatMap_eq {α β γ : Type} (f : γ → β → γ) (h : α → List β) (l : List α)
    (init : γ) :
    (l.flatMap h).foldl f init = l.foldl (fun acc a => (h a).foldl f acc) init := by
  induction l generalizing init with
  | nil => rfl
  | cons a l ih => simp [List.flatMap_cons, List.foldl_append, ih]

/-- The three nested voxel loops visit the voxels of `voxels g` one after the other. -/
theorem voxel_loop_eq_foldl
    (linear_regression : VectorWithOffset → VectorWithOffset → VectorWithOffset → LinearFit)
    (fs : FrameState) (bv : ℚ) (dyn_image : Nat → Int → Int → Int → ℚ) (g : Grid)
    (starting_frame num_frames : Nat) (init : VoxelLoopState) :
    voxel_loop linear_regression fs bv dyn_image g starting_frame num_frames init =
      (voxels g).foldl
        (voxel_body linear_regression fs bv dyn_image g starting_frame num_frames) init := by
  simp only [voxel_loop, voxels, foldl_flatMap_eq, List.foldl_map]

theorem roi_slot_plus_trans (a b c : RoIState) (n : Nat) (p y x t p1 y1 x1 t1 : ℚ)
    (hab : roi_slot_plus a b n p y x t) (hbc : roi_slot_plus b c n p1 y1 x1 t1) :
    roi_slot_plus a c n (p + p1) (y + y1) (x + x1) (t + t1) := by
  obtain ⟨h1, h2, h3, h4⟩ := hab
  obtain ⟨g1, g2, g3, g4⟩ := hbc
  exact ⟨by rw [g1, h1]; ring, by rw [g2, h2]; ring, by rw [g3, h3]; ring,
    by rw [g4, h4]; ring⟩

/-- The RoI accumulators after the voxel loop has gone through the voxels `vs`: the counter
went up by the number of RoI voxels times the number of frames of the regression, and the slot
of every such frame received the sum of the quantities over the RoI voxels. -/
theorem voxel_fold_roi
    (linear_regression : VectorWithOffset → VectorWithOffset → VectorWithOffset → LinearFit)
    (fs : FrameState) (bv : ℚ) (dyn_image : Nat → Int → Int → Int → ℚ) (g : Grid)
    (starting_frame num_frames : Nat) (h1 : 1 ≤ starting_frame)
    (hsn : starting_frame ≤ num_frames + 1) (vs : List (Int × Int × Int))
    (st : VoxelLoopState) (hsz : roi_sized num_frames st.roi) :
    roi_sized num_frames
      (vs.foldl (voxel_body linear_regression fs bv dyn_image g starting_frame num_frames)
        st).roi ∧
    (vs.foldl (voxel_body linear_regression fs bv dyn_image g starting_frame num_frames)
        st).roi.total_voxels_RoI =
      st.roi.total_voxels_RoI +
        ((vs.filter fun v => in_RoI g v.1 v.2.1 v.2.2).length : Int) *
          ((num_frames + 1 - starting_frame : Nat) : Int) ∧
    ∀ n, roi_slot_plus st.roi
      (vs.foldl (voxel_body linear_regression fs bv dyn_image g starting_frame num_frames)
        st).roi n
      (((vs.filter fun v => in_RoI g v.1 v.2.1 v.2.2).map fun _ =>
        if starting_frame ≤ n + 1 ∧ n + 1 ≤ num_frames then fs.plasma_vector.getD n 0
        else 0).sum)
      (((vs.filter fun v => in_RoI g v.1 v.2.1 v.2.2).map fun v =>
        if starting_frame ≤ n + 1 ∧ n + 1 ≤ num_frames then
          patlak_y_value fs bv dyn_image v.1 v.2.1 v.2.2 (n + 1) else 0).sum)
      (((vs.filter fun v => in_RoI g v.1 v.2.1 v.2.2).map fun _ =>
        if starting_frame ≤ n + 1 ∧ n + 1 ≤ num_frames then patlak_x_value fs (n + 1)
        else 0).sum)
      (((vs.filter fun v => in_RoI g v.1 v.2.1 v.2.2).map fun v =>
        if starting_frame ≤ n + 1 ∧ n + 1 ≤ num_frames then dyn_image (n + 1) v.1 v.2.1 v.2.2
        else 0).sum) := by
  induction vs generalizing st with
  | nil =>
    refine ⟨hsz, by simp, ?_⟩
    intro n
    simp [roi_slot_plus]
  | cons v vs ih =>
    rw [List.foldl_cons]
    by_cases hin : in_RoI g v.1 v.2.1 v.2.2 = true
    · obtain ⟨s1, t1, a1⟩ :=
        voxel_frames_upto_roi_in fs bv dyn_image g starting_frame num_frames v.1 v.2.1 v.2.2
          st.roi (num_frames + 1 - starting_frame) h1 (by omega) hsz hin
      have hroi : (voxel_body linear_regression fs bv dyn_image g starting_frame num_frames
          st v).roi = ((List.range' starting_frame (num_frames + 1 - starting_frame)).foldl
            (voxel_frame_body fs bv dyn_image g v.1 v.2.1 v.2.2)
            (patlak_vectors_init starting_frame num_frames, st.roi)).2 := rfl
      obtain ⟨s2, t2, a2⟩ :=
        ih (voxel_body linear_regression fs bv dyn_image g starting_frame num_frames st v)
          (by rw [hroi]; exact s1)
      refine ⟨s2, ?_, ?_⟩
      · rw [t2, hroi, t1]
        simp only [List.filter_cons, hin, if_true, List.length_cons]
        push_cast
        ring
      · intro n
        have hiff : (starting_frame ≤ n + 1 ∧
            n + 1 < starting_frame + (num_frames + 1 - starting_frame)) ↔
            (starting_frame ≤ n + 1 ∧ n + 1 ≤ num_frames) := by omega
        have hstep := a1 n
        simp only [hiff] at hstep
        rw [← hroi] at hstep
        have := roi_slot_plus_trans _ _ _ n _ _ _ _ _ _ _ _ hstep (a2 n)
        simpa only [List.filter_cons, hin, if_true, List.map_cons, List.sum_cons] using this
    · have hout : in_RoI g v.1 v.2.1 v.2.2 = false := by simpa using hin
      have hroi : (voxel_body linear_regression fs bv dyn_image g starting_frame num_frames
          st v).roi = st.roi :=
        voxel_frames_upto_roi_out fs bv dyn_image g starting_frame num_frames v.1 v.2.1 v.2.2
          st.roi (num_frames + 1 - starting_frame) hout
      obtain ⟨s2, t2, a2⟩ :=
        ih (voxel_body linear_regression fs bv dyn_image g starting_frame num_frames st v)
          (by rw [hroi]; exact hsz)
      rw [hroi] at t2 a2
      refine ⟨s2, ?_, ?_⟩
      · rw [t2]
        simp only [List.filter_cons, hout, Bool.false_eq_true, if_false]
      · intro n
        simpa only [List.filter_cons, hout, Bool.false_eq_true, if_false] using a2 n

/-- What the voxel loop leaves in the RoI accumulators when it starts from the zeroed
accumulators of lines 202-206: `total_voxels_RoI` is the number of RoI voxels times the number
of frames `starting_frame..num_frames`, and the slot of each of these frames holds the sums
over the RoI voxels. -/
theorem voxel_loop_roi
    (linear_regression : VectorWithOffset → VectorWithOffset → VectorWithOffset → LinearFit)
    (fs : FrameState) (bv : ℚ) (dyn_image : Nat → Int → Int → Int → ℚ) (g : Grid)
    (starting_frame num_frames : Nat) (h1 : 1 ≤ starting_frame)
    (hsn : starting_frame ≤ num_frames + 1) (slope_image y_image : Int → Int → Int → ℚ) :
    (voxel_loop linear_regression fs bv dyn_image g starting_frame num_frames
      { roi := roi_init num_frames, slope_image := slope_image,
        y_intersection_image := y_image }).roi.total_voxels_RoI =
      ((RoI_voxels g).length : Int) * ((num_frames + 1 - starting_frame : Nat) : Int) ∧
    ∀ f, starting_frame ≤ f → f ≤ num_frames →
      (voxel_loop linear_regression fs bv dyn_image g starting_frame num_frames
        { roi := roi_init num_frames, slope_image := slope_image,
          y_intersection_image := y_image }).roi.plasma_vector_RoI.getD (f - 1) 0 =
        ((RoI_voxels g).map fun _ => fs.plasma_vector.getD (f - 1) 0).sum ∧
      (voxel_loop linear_regression fs bv dyn_image g starting_frame num_frames
        { roi := roi_init num_frames, slope_image := slope_image,
          y_intersection_image := y_image }).roi.patlak_y_RoI.getD (f - 1) 0 =
        ((RoI_voxels g).map fun v =>
          patlak_y_value fs bv dyn_image v.1 v.2.1 v.2.2 f).sum ∧
      (voxel_loop linear_regression fs bv dyn_image g starting_frame num_frames
        { roi := roi_init num_frames, slope_image := slope_image,
          y_intersection_image := y_image }).roi.patlak_x_RoI.getD (f - 1) 0 =
        ((RoI_voxels g).map fun _ => patlak_x_value fs f).sum ∧
      (voxel_loop linear_regression fs bv dyn_image g starting_frame num_frames
        { roi := roi_init num_frames, slope_image := slope_image,
          y_intersection_image := y_image }).roi.tissue_vector_RoI.getD (f - 1) 0 =
        ((RoI_voxels g).map fun v => dyn_image f v.1 v.2.1 v.2.2).sum := by
  have hsz : roi_sized num_frames (roi_init num_frames) := by
    simp [roi_sized, roi_init]
  obtain ⟨_, ht, hall⟩ :=
    voxel_fold_roi linear_regression fs bv dyn_image g starting_frame num_frames h1 hsn
      (voxels g)
      { roi := roi_init num_frames, slope_image := slope_image,
        y_intersection_image := y_image } hsz
  rw [voxel_loop_eq_foldl]
  refine ⟨?_, ?_⟩
  · rw [ht]
    simp [roi_init, RoI_voxels]
  · intro f h2 h3
    obtain ⟨a, b, c, d⟩ := hall (f - 1)
    have hf : f - 1 + 1 = f := by omega
    have hyes : starting_frame ≤ f ∧ f ≤ num_frames := ⟨h2, h3⟩
    simp only [hf, hyes, and_self, if_true] at a b c d
    have hz : ∀ n, (List.replicate num_frames (0 : ℚ)).getD n 0 = 0 := by
      intro n
      simp [List.getD_eq_getElem?_getD, List.getElem?_replicate]
      split <;> rfl
    simp only [roi_init, hz, zero_add] at a b c d
    exact ⟨a, b, c, d⟩

/-- The run of `main` on the one-voxel, fourteen-frame image with the steady plasma series
and the two file names only: the report is the one of the voxel loop run with `bv = 0.05` and
`starting_frame = 2`. -/
theorem sample_report (wy ws : Succeeded) :
    (main (sample_externals wy ws) (sample_inputs ten_second_frames steady_plasma)).tac =
      some (tac_rows ten_second_frames 2 14
        (voxel_loop (fun _ _ _ => ⟨0, 0, 0, 0, 0, 0⟩)
          (integrate_frames linear_integral steady_plasma ten_second_frames) (5 / 100)
          (fun _ _ _ _ => 100) single_voxel_grid 2 14
          { roi := roi_init 14, slope_image := fun _ _ _ => 100,
            y_intersection_image := fun _ _ _ => 100 }).roi) := by
  rfl

/-- C4, the run on the one-voxel image with fourteen frames. The RoI holds one voxel, but
`total_voxels_RoI` ends at 13, one count per frame of the regression; so the report gives for
frame 14 a Plasma column of 8/13 and a Tissue column of 100/13, where the means over the RoI
voxel are 8 and 100. -/
theorem roi_divisor_counts_frames :
    (RoI_voxels single_voxel_grid).length = 1 ∧
    (main (sample_externals Succeeded.yes Succeeded.yes)
      (sample_inputs ten_second_frames steady_plasma)).voxel_state.map
        (·.roi.total_voxels_RoI) = some 13 ∧
    ((RoI_voxels single_voxel_grid).map fun _ =>
      (integrate_frames linear_integral steady_plasma ten_second_frames).plasma_vector.getD
        (14 - 1) 0).sum / ((RoI_voxels single_voxel_grid).length : ℚ) = 8 ∧
    (main (sample_externals Succeeded.yes Succeeded.yes)
      (sample_inputs ten_second_frames steady_plasma)).tac.bind
        (fun rows => rows[12]?.map fun row => (row.frame, row.plasma, row.tissue)) =
      some (14, 8 / 13, 100 / 13) := by
  have hroi : RoI_voxels single_voxel_grid = [(0, 0, 0)] := by decide
  obtain ⟨ht, hall⟩ :=
    voxel_loop_roi (fun _ _ _ => ⟨0, 0, 0, 0, 0, 0⟩)
      (integrate_frames linear_integral steady_plasma ten_second_frames) (5 / 100)
      (fun _ _ _ _ => 100) single_voxel_grid 2 14 (by decide) (by decide)
      (fun _ _ _ => 100) (fun _ _ _ => 100)
  obtain ⟨hp, _, _, htis⟩ := hall 14 (by decide) (by decide)
  rw [hroi] at ht hp htis
  refine ⟨by rw [hroi]; rfl, by decide, ?_, ?_⟩
  · rw [hroi, steady_frame_14.1]
    norm_num
  · rw [sample_report]
    simp only [Option.some_bind, tac_rows, frame_range, List.getElem?_map]
    rw [List.getElem?_range' 2 1 (by decide : 12 < 14 + 1 - 2)]
    simp only [Option.map_some', ht, hp, htis, steady_frame_14.1]
    norm_num

/-! ## The RoI band -/

/-- The band condition without the absolute value. -/
theorem in_band_iff (min_index max_index k : Int) :
    in_band min_index max_index k = true ↔
      -6 ≤ max_index + min_index - 2 * k ∧ max_index + min_index - 2 * k ≤ 6 := by
  simp only [in_band, decide_eq_true_eq, abs_le]

/-- The band condition says that `k` is within distance 3 of the midpoint of the axis, the
midpoint taken as the rational number `(min_index + max_index) / 2`. -/
theorem in_band_iff_midpoint (min_index max_index k : Int) :
    in_band min_index max_index k = true ↔
      |(k : ℚ) - ((min_index : ℚ) + (max_index : ℚ)) / 2| ≤ 3 := by
  rw [in_band_iff, abs_le]
  constructor
  · rintro ⟨h1, h2⟩
    have h1q : ((-6 : Int) : ℚ) ≤ ((max_index + min_index - 2 * k : Int) : ℚ) :=
      Int.cast_le.mpr h1
    have h2q : ((max_index + min_index - 2 * k : Int) : ℚ) ≤ ((6 : Int) : ℚ) :=
      Int.cast_le.mpr h2
    push_cast at h1q h2q
    constructor <;> linarith
  · rintro ⟨h1, h2⟩
    have h1q : ((-6 : Int) : ℚ) ≤ ((max_index + min_index - 2 * k : Int) : ℚ) := by
      push_cast; linarith
    have h2q : ((max_index + min_index - 2 * k : Int) : ℚ) ≤ ((6 : Int) : ℚ) := by
      push_cast; linarith
    exact ⟨Int.cast_le.mp h1q, Int.cast_le.mp h2q⟩

/-- The number of `i < n` with `a ≤ i < b`. -/
theorem countP_range_interval (a b n : Nat) (hab : a ≤ b) :
    (List.range n).countP (fun i => decide (a ≤ i ∧ i < b)) = min n b - min n a := by
  induction n with
  | zero => simp
  | succ n ih =>
    rw [List.range_succ, List.countP_append, ih]
    by_cases h : a ≤ n ∧ n < b
    · simp only [List.countP_cons, List.countP_nil, h, and_self, decide_True, if_true]
      omega
    · simp only [List.countP_cons, List.countP_nil, h, decide_False, Bool.false_eq_true,
        if_false]
      omega

/-- The index range as the image of `0, 1, ..., max_index - min_index`. -/
theorem index_range_eq_map (min_index max_index : Int) :
    index_range min_index max_index =
      (List.range (max_index + 1 - min_index).toNat).map
        (fun n : Nat => min_index + (n : Int)) := by
  simp only [index_range]
  generalize List.range (max_index + 1 - min_index).toNat = l
  induction l with
  | nil => rfl
  | cons a l ih =>
    rw [List.map_cons, ← ih]
    rfl

/-- On an axis with at least 7 indices the band holds 7 indices when the number of indices is
odd and 6 when it is even. -/
theorem band_count_eq (min_index max_index : Int) (h : min_index + 6 ≤ max_index) :
    band_count min_index max_index = if (max_index - min_index) % 2 = 0 then 7 else 6 := by
  have hcongr : ∀ i ∈ List.range (max_index + 1 - min_index).toNat,
      ((in_band min_index max_index ∘ fun n : Nat => min_index + (n : Int)) i = true ↔
        (decide (((max_index - min_index).toNat - 5) / 2 ≤ i ∧
          i < ((max_index - min_index).toNat + 6) / 2 + 1)) = true) := by
    intro i _
    simp only [Function.comp, in_band_iff, decide_eq_true_eq]
    omega
  rw [band_count, index_range_eq_map, ← List.countP_eq_length_filter, List.countP_map,
    List.countP_congr hcongr, countP_range_interval _ _ _ (by omega)]
  split <;> omega

/-- The RoI voxels among a list of rows: when every selected row holds `c` RoI voxels and every
other row holds none, the count is the number of selected rows times `c`. -/
theorem length_filter_flatMap_rows {α β : Type} (l : List α) (f : α → List β) (p : β → Bool)
    (q : α → Bool) (c : Nat) (h1 : ∀ a, q a = true → ((f a).filter p).length = c)
    (h0 : ∀ a, q a = false → ((f a).filter p).length = 0) :
    ((l.flatMap f).filter p).length = (l.filter q).length * c := by
  induction l with
  | nil => simp
  | cons a l ih =>
    rw [List.flatMap_cons, List.filter_append, List.length_append, ih]
    cases hq : q a with
    | true =>
      rw [h1 a hq, List.filter_cons_of_pos (by simpa using hq), List.length_cons]
      ring
    | false =>
      rw [h0 a hq, List.filter_cons_of_neg (by simp [hq])]
      ring

/-- On a cuboid the number of RoI voxels is the product of the band counts of the three
axes. -/
theorem cuboid_RoI_count (min_k max_k min_j max_j min_i max_i : Int) :
    (RoI_voxels (cuboid_grid min_k max_k min_j max_j min_i max_i)).length =
      band_count min_k max_k * (band_count min_j max_j * band_count min_i max_i) := by
  simp only [RoI_voxels, voxels, cuboid_grid, in_RoI]
  apply length_filter_flatMap_rows _ _ _ (in_band min_k max_k)
  · intro k hk
    apply length_filter_flatMap_rows _ _ _ (in_band min_j max_j)
    · intro j hj
      rw [List.filter_map, List.length_map]
      simp only [band_count]
      congr 1
      apply List.filter_congr
      intro i _
      simp [Function.comp, hk, hj]
    · intro j hj
      rw [List.filter_map, List.length_map, List.length_eq_zero, List.filter_eq_nil_iff]
      intro i _
      simp [Function.comp, hj]
  · intro k hk
    rw [List.length_eq_zero, List.filter_eq_nil_iff]
    intro v hv
    obtain ⟨j, _, hj⟩ := List.mem_flatMap.mp hv
    obtain ⟨i, _, rfl⟩ := List.mem_map.mp hj
    simp [hk]

/-- C11, counterexample. The axis `0..7` has 8 indices, at least 7, but the band condition
selects the 6 indices `1, ..., 6` only; so the cuboid with 8 indices along each axis has
`6 * 6 * 6 = 216` RoI voxels, not 343. -/
theorem band_of_even_axis_has_six :
    (index_range 0 7).length = 8 ∧
    (index_range 0 7).filter (in_band 0 7) = [1, 2, 3, 4, 5, 6] ∧
    band_count 0 7 ≠ 7 ∧
    (RoI_voxels (cuboid_grid 0 7 0 7 0 7)).length = 216 ∧
    (RoI_voxels (cuboid_grid 0 7 0 7 0 7)).length ≠ 343 := by
  have h6 : band_count 0 7 = 6 := by decide
  have hc : (RoI_voxels (cuboid_grid 0 7 0 7 0 7)).length = 216 := by
    rw [cuboid_RoI_count, h6]
  refine ⟨by decide, by decide, by rw [h6]; decide, hc, by rw [hc]; decide⟩

/-- C11, amended. RoI band predicate: `abs(max+min-2*k)<=6` holds exactly when `k` lies within
distance 3 of the rational midpoint `(min+max)/2`; on an axis with at least 7 indices the
predicate selects exactly 7 indices when the number of indices `max-min+1` is odd and exactly 6
when it is even; so on a cuboid grid with at least 7 indices along each axis the number of RoI
voxels is the product of these three counts, and it is `7*7*7 = 343` when the three numbers of
indices are odd. -/
theorem band_selects_seven_or_six (min_k max_k min_j max_j min_i max_i : Int)
    (hk : min_k + 6 ≤ max_k) (hj : min_j + 6 ≤ max_j) (hi : min_i + 6 ≤ max_i) :
    (∀ min_index max_index k : Int, in_band min_index max_index k = true ↔
      |(k : ℚ) - ((min_index : ℚ) + (max_index : ℚ)) / 2| ≤ 3) ∧
    band_count min_k max_k = (if (max_k - min_k) % 2 = 0 then 7 else 6) ∧
    band_count min_j max_j = (if (max_j - min_j) % 2 = 0 then 7 else 6) ∧
    band_count min_i max_i = (if (max_i - min_i) % 2 = 0 then 7 else 6) ∧
    (RoI_voxels (cuboid_grid min_k max_k min_j max_j min_i max_i)).length =
      (if (max_k - min_k) % 2 = 0 then 7 else 6) *
        ((if (max_j - min_j) % 2 = 0 then 7 else 6) *
          (if (max_i - min_i) % 2 = 0 then 7 else 6)) ∧
    ((max_k - min_k) % 2 = 0 → (max_j - min_j) % 2 = 0 → (max_i - min_i) % 2 = 0 →
      (RoI_voxels (cuboid_grid min_k max_k min_j max_j min_i max_i)).length = 343) := by
  have ck := band_count_eq min_k max_k hk
  have cj := band_count_eq min_j max_j hj
  have ci := band_count_eq min_i max_i hi
  have hc := cuboid_RoI_count min_k max_k min_j max_j min_i max_i
  refine ⟨in_band_iff_midpoint, ck, cj, ci, ?_, ?_⟩
  · rw [hc, ck, cj, ci]
  · intro ek ej ei
    rw [hc, ck, cj, ci, if_pos ek, if_pos ej, if_pos ei]

/-- Witness of C11, amended: the cuboid with the 7 indices `0..6` along each axis has 343 RoI
voxels. -/
theorem band_selects_seven_or_six_witness :
    (0 : Int) + 6 ≤ 6 ∧ (RoI_voxels (cuboid_grid 0 6 0 6 0 6)).length = 343 :=
  ⟨by decide,
   (band_selects_seven_or_six 0 6 0 6 0 6 (by decide) (by decide) (by decide)).2.2.2.2.2
     (by decide) (by decide) (by decide)⟩

end Patlak
